import Mathlib

/-!
Verification development for the pose-estimation frame pipeline.

The TypeScript sources are shallowly embedded: JavaScript numbers are
modelled as exact rationals (`ℚ`), byte buffers as `List ℕ`, tensors of
possibly-NaN floats as `List (Option ℚ)` (`none` models `NaN`/missing, both
of which are falsy and hence turned into the fallback value by `x || d`),
and thrown exceptions as `Except String`.  Wall-clock readings
(`Date.now()`) are modelled as `0` or passed in explicitly, since no
verified property depends on them.  Loops that fill a fresh array cell by
cell are rendered as a map over the flat index range they write.
-/

namespace Pose

/-- JavaScript `Math.round` on the values used here: round half up. -/
def jsRound (q : ℚ) : ℤ := ⌊q + 1/2⌋

/-- Embeds `Math.max(0, Math.min(255, z))` landing in a byte. -/
def clamp255 (z : ℤ) : ℕ := (max 0 (min 255 z)).toNat

/-- Embeds `Math.max(0, Math.min(1, q))`. -/
def clamp01 (q : ℚ) : ℚ := max 0 (min 1 q)

/-- A JavaScript float that may be `NaN` (modelled by `none`). -/
def JVal := Option ℚ

/-- Embeds `v || 0`: `NaN`, missing and `0` all collapse to `0`. -/
def orZero (v : JVal) : ℚ :=
  match v with
  | none => 0
  | some q => q

/-- Embeds `TypedArray.prototype.subarray` (begin/end already nonnegative
integers, end clamped by the caller where the source clamps). -/
def subarray (l : List ℕ) (a b : ℕ) : List ℕ := (l.drop a).take (b - a)

/-- Indexing `plane[i]` with a possibly negative index: `undefined` is
`none`. -/
def jsGet (l : List ℕ) (i : ℤ) : Option ℕ :=
  if h : 0 ≤ i ∧ i.toNat < l.length then some (l.get ⟨i.toNat, h.2⟩) else none

/-- Embeds `v || 128`: `undefined` and the byte `0` are both falsy. -/
def or128 (v : Option ℕ) : ℕ :=
  match v with
  | none => 128
  | some 0 => 128
  | some v => v

/-! ## Keypoint extractor (`KeypointExtractor.ts`) -/

/-- Source types `Keypoint` and `ScreenKeypoint`: same shape, reused for both. -/
structure Keypoint where
  x : ℚ
  y : ℚ
  confidence : ℚ
deriving Repr, DecidableEq

/-- The 17 named keypoints, fields in the source's declaration
(= tensor-index) order. -/
structure PoseKeypoints where
  nose : Keypoint
  leftEye : Keypoint
  rightEye : Keypoint
  leftEar : Keypoint
  rightEar : Keypoint
  leftShoulder : Keypoint
  rightShoulder : Keypoint
  leftElbow : Keypoint
  rightElbow : Keypoint
  leftWrist : Keypoint
  rightWrist : Keypoint
  leftHip : Keypoint
  rightHip : Keypoint
  leftKnee : Keypoint
  rightKnee : Keypoint
  leftAnkle : Keypoint
  rightAnkle : Keypoint
deriving Repr, DecidableEq

/-- Embeds `Object.values(keypoints)`: insertion order = declaration order. -/
def poseList (k : PoseKeypoints) : List Keypoint :=
  [k.nose, k.leftEye, k.rightEye, k.leftEar, k.rightEar,
   k.leftShoulder, k.rightShoulder, k.leftElbow, k.rightElbow,
   k.leftWrist, k.rightWrist, k.leftHip, k.rightHip,
   k.leftKnee, k.rightKnee, k.leftAnkle, k.rightAnkle]

structure KeypointExtractionConfig where
  confidenceThreshold : ℚ
  screenWidth : ℚ
  screenHeight : ℚ
deriving Repr, DecidableEq

def DEFAULT_KEYPOINT_CONFIG : KeypointExtractionConfig :=
  { confidenceThreshold := 3/10, screenWidth := 192, screenHeight := 192 }

structure PoseDetectionResult where
  keypoints : PoseKeypoints
  screenKeypoints : PoseKeypoints
  overallConfidence : ℚ
  validKeypoints : ℕ
  processingTime : ℚ
  frameWidth : ℚ
  frameHeight : ℚ
deriving Repr, DecidableEq

/-- Source function `extractKeypoint(outputTensor, keypointIndex)`. -/
def extractKeypoint (t : List JVal) (keypointIndex : ℕ) : Keypoint :=
  let baseIndex := keypointIndex * 3
  if baseIndex + 2 ≥ t.length then
    { x := 0, y := 0, confidence := 0 }
  else
    let y := orZero (t.getD baseIndex none)
    let x := orZero (t.getD (baseIndex + 1) none)
    let confidence := orZero (t.getD (baseIndex + 2) none)
    { x := clamp01 x, y := clamp01 y, confidence := clamp01 confidence }

/-- Source function `keypointToScreen`. -/
def keypointToScreen (k : Keypoint) (screenWidth screenHeight : ℚ) : Keypoint :=
  { x := k.x * screenWidth, y := k.y * screenHeight, confidence := k.confidence }

/-- The seven `keyKeypointNames` confidences, in the source's order. -/
def keyConfidences (k : PoseKeypoints) : List ℚ :=
  [k.nose.confidence, k.leftShoulder.confidence, k.rightShoulder.confidence,
   k.leftHip.confidence, k.rightHip.confidence,
   k.leftKnee.confidence, k.rightKnee.confidence]

/-- The accumulation loop of `calculateOverallConfidence`:
running `(totalConfidence, validKeypoints)` pair. -/
def confFold (l : List ℚ) : ℚ × ℕ :=
  l.foldl (fun acc c => if c > 1/10 then (acc.1 + c, acc.2 + 1) else acc) (0, 0)

/-- Source function `calculateOverallConfidence`. -/
def calculateOverallConfidence (k : PoseKeypoints) : ℚ :=
  let acc := confFold (keyConfidences k)
  if acc.2 > 0 then acc.1 / acc.2 else 0

/-- Source function `countValidKeypoints`. -/
def countValidKeypoints (k : PoseKeypoints) (threshold : ℚ) : ℕ :=
  (poseList k).foldl (fun count kp => if kp.confidence ≥ threshold then count + 1 else count) 0

/-- Builds the 17-field record of `extractPoseKeypoints`. -/
def buildKeypoints (mo : List JVal) : PoseKeypoints :=
  { nose := extractKeypoint mo 0
    leftEye := extractKeypoint mo 1
    rightEye := extractKeypoint mo 2
    leftEar := extractKeypoint mo 3
    rightEar := extractKeypoint mo 4
    leftShoulder := extractKeypoint mo 5
    rightShoulder := extractKeypoint mo 6
    leftElbow := extractKeypoint mo 7
    rightElbow := extractKeypoint mo 8
    leftWrist := extractKeypoint mo 9
    rightWrist := extractKeypoint mo 10
    leftHip := extractKeypoint mo 11
    rightHip := extractKeypoint mo 12
    leftKnee := extractKeypoint mo 13
    rightKnee := extractKeypoint mo 14
    leftAnkle := extractKeypoint mo 15
    rightAnkle := extractKeypoint mo 16 }

/-- The screen-coordinate record of `extractPoseKeypoints`. -/
def buildScreenKeypoints (k : PoseKeypoints) (cfg : KeypointExtractionConfig) : PoseKeypoints :=
  { nose := keypointToScreen k.nose cfg.screenWidth cfg.screenHeight
    leftEye := keypointToScreen k.leftEye cfg.screenWidth cfg.screenHeight
    rightEye := keypointToScreen k.rightEye cfg.screenWidth cfg.screenHeight
    leftEar := keypointToScreen k.leftEar cfg.screenWidth cfg.screenHeight
    rightEar := keypointToScreen k.rightEar cfg.screenWidth cfg.screenHeight
    leftShoulder := keypointToScreen k.leftShoulder cfg.screenWidth cfg.screenHeight
    rightShoulder := keypointToScreen k.rightShoulder cfg.screenWidth cfg.screenHeight
    leftElbow := keypointToScreen k.leftElbow cfg.screenWidth cfg.screenHeight
    rightElbow := keypointToScreen k.rightElbow cfg.screenWidth cfg.screenHeight
    leftWrist := keypointToScreen k.leftWrist cfg.screenWidth cfg.screenHeight
    rightWrist := keypointToScreen k.rightWrist cfg.screenWidth cfg.screenHeight
    leftHip := keypointToScreen k.leftHip cfg.screenWidth cfg.screenHeight
    rightHip := keypointToScreen k.rightHip cfg.screenWidth cfg.screenHeight
    leftKnee := keypointToScreen k.leftKnee cfg.screenWidth cfg.screenHeight
    rightKnee := keypointToScreen k.rightKnee cfg.screenWidth cfg.screenHeight
    leftAnkle := keypointToScreen k.leftAnkle cfg.screenWidth cfg.screenHeight
    rightAnkle := keypointToScreen k.rightAnkle cfg.screenWidth cfg.screenHeight }

/-- Source function `extractPoseKeypoints`: the only throw inside the `try` is the shape
check; the surrounding `catch` re-throws it with the
`Keypoint extraction error: ` prefix, which is folded into the message
here.  `processingTime` (a `Date.now()` difference) is modelled as 0. -/
def extractPoseKeypoints (mo : List JVal) (cfg : KeypointExtractionConfig) :
    Except String PoseDetectionResult :=
  if mo.length ≠ 51 then
    .error ("Keypoint extraction error: Invalid MoveNet output shape. Expected 51 values (1*1*17*3), got "
      ++ toString mo.length)
  else
    let keypoints := buildKeypoints mo
    .ok
      { keypoints := keypoints
        screenKeypoints := buildScreenKeypoints keypoints cfg
        overallConfidence := calculateOverallConfidence keypoints
        validKeypoints := countValidKeypoints keypoints cfg.confidenceThreshold
        processingTime := 0
        frameWidth := cfg.screenWidth
        frameHeight := cfg.screenHeight }

/-! ## Colour-space conversion (`ImagePreprocessorFunctions.ts`) -/

/-- Channel selector for an `(R, G, B)` triple. -/
def chanOf (t : ℕ × ℕ × ℕ) (c : ℕ) : ℕ :=
  if c = 0 then t.1 else if c = 1 then t.2.1 else t.2.2

/-- The three plane views taken by both converters.  `uvSize = ySize / 4`
is a JavaScript number, so the `subarray` boundaries built from it are
truncated, exactly as `subarray` itself truncates its arguments. -/
def yuvPlanes (buf : List ℕ) (w h : ℕ) : List ℕ × List ℕ × List ℕ :=
  let ySize := w * h
  let uvQ : ℚ := (ySize : ℚ) / 4
  let uEnd : ℕ := (⌊(ySize : ℚ) + uvQ⌋).toNat
  let vEnd : ℕ := min buf.length (⌊(ySize : ℚ) + 2 * uvQ⌋).toNat
  (subarray buf 0 ySize, subarray buf ySize uEnd, subarray buf uEnd vEnd)

/-- Body of `convertYUVtoRGB`'s per-pixel loop (the in-bounds `else`
branch and the `safeUVIndex` branch for an out-of-range chroma index). -/
def yuvPixelStd (yP uP vP : List ℕ) (w : ℕ) (x y : ℕ) : ℕ × ℕ × ℕ :=
  let yIndex := y * w + x
  let uvIndex := y / 2 * (w / 2) + x / 2
  let Y : ℤ := yP.getD yIndex 0
  if uvIndex ≥ uP.length ∨ uvIndex ≥ vP.length then
    let safeUVIndex : ℤ := min (uvIndex : ℤ) (min ((uP.length : ℤ) - 1) ((vP.length : ℤ) - 1))
    let U : ℤ := (or128 (jsGet uP safeUVIndex) : ℤ) - 128
    let V : ℤ := (or128 (jsGet vP safeUVIndex) : ℤ) - 128
    let R : ℚ := (Y : ℚ) + 1.402 * (V : ℚ)
    let G : ℚ := (Y : ℚ) - 0.344 * (U : ℚ) - 0.714 * (V : ℚ)
    let B : ℚ := (Y : ℚ) + 1.772 * (U : ℚ)
    (clamp255 (jsRound R), clamp255 (jsRound G), clamp255 (jsRound B))
  else
    let U : ℤ := (uP.getD uvIndex 0 : ℤ) - 128
    let V : ℤ := (vP.getD uvIndex 0 : ℤ) - 128
    let R : ℚ := (Y : ℚ) + 1.402 * (V : ℚ)
    let G : ℚ := (Y : ℚ) - 0.344 * (U : ℚ) - 0.714 * (V : ℚ)
    let B : ℚ := (Y : ℚ) + 1.772 * (U : ℚ)
    (clamp255 (jsRound R), clamp255 (jsRound G), clamp255 (jsRound B))

/-- Source function `convertYUVtoRGB`.  The loop writes `rgbData[(y*w+x)*3 + c]` for every
pixel, rendered here as a map over the flat index.  The loop throws
`Y index out of bounds` at the first pixel whose luma index exceeds the Y
plane; since the pixel indices cover `[0, w*h)` and the Y plane has
`min (buf.length) (w*h)` entries, that happens iff `buf.length < w*h`,
and the thrown error aborts the whole conversion (re-thrown by the
surrounding `catch` with the `YUV conversion error: ` prefix). -/
def convertYUVtoRGB (buf : List ℕ) (w h : ℕ) : Except String (List ℕ) :=
  if buf.length = 0 then .error "YUV data is empty or null"
  else if w = 0 ∨ h = 0 then .error "Invalid dimensions"
  else if buf.length < w * h then
    .error "YUV conversion error: Y index out of bounds"
  else
    let planes := yuvPlanes buf w h
    .ok ((List.range (w * h * 3)).map fun i =>
      let p := i / 3
      chanOf (yuvPixelStd planes.1 planes.2.1 planes.2.2 w (p % w) (p / w)) (i % 3))

/-! ## Optimised colour-space conversion (`ImagePreprocessorOptimized.ts`) -/

/-- Embeds `(v < 0) ? 0 : (v > 255) ? 255 : (v + 0.5) | 0`, the fast clamp of
the optimised converter (`| 0` truncates, and `v + 0.5 ≥ 0` there). -/
def fastClamp (v : ℚ) : ℕ := if v < 0 then 0 else if 255 < v then 255 else (⌊v + 1/2⌋).toNat

/-- Per-pixel value of `convertYUVtoRGBOptimized`: the 2×2 block loop
computes the chroma values once per block from `(y >>> 1, x >>> 1)` and
the pre-computed coefficient contributions, then converts each covered
pixel. -/
def yuvPixelOpt (yP uP vP : List ℕ) (w : ℕ) (x y : ℕ) : ℕ × ℕ × ℕ :=
  let uvIndex := y / 2 * (w / 2) + x / 2
  let safeUVIndex : ℤ := min (uvIndex : ℤ) (min ((uP.length : ℤ) - 1) ((vP.length : ℤ) - 1))
  let U : ℤ := (or128 (jsGet uP safeUVIndex) : ℤ) - 128
  let V : ℤ := (or128 (jsGet vP safeUVIndex) : ℤ) - 128
  let rUV : ℚ := 1.402 * (V : ℚ)
  let gUV : ℚ := -0.344 * (U : ℚ) + -0.714 * (V : ℚ)
  let bUV : ℚ := 1.772 * (U : ℚ)
  let Y : ℤ := yP.getD (y * w + x) 0
  (fastClamp ((Y : ℚ) + rUV), fastClamp ((Y : ℚ) + gUV), fastClamp ((Y : ℚ) + bUV))

/-- Source function `convertYUVtoRGBOptimized`.  Pixels whose luma index falls outside the
Y plane are skipped by the block loop, leaving the pre-allocated `0`. -/
def convertYUVtoRGBOptimized (buf : List ℕ) (w h : ℕ) : Except String (List ℕ) :=
  if buf.length = 0 then .error "YUV data is empty or null"
  else if w = 0 ∨ h = 0 then .error "Invalid dimensions"
  else
    let planes := yuvPlanes buf w h
    .ok ((List.range (w * h * 3)).map fun i =>
      let p := i / 3
      if p < planes.1.length then
        chanOf (yuvPixelOpt planes.1 planes.2.1 planes.2.2 w (p % w) (p / w)) (i % 3)
      else 0)

/-! ## Resizers -/

/-- Source function `resizeRGBData`: nearest-neighbour, `srcX = floor(dstX * srcW/dstW)`
clamped to `srcW - 1`. -/
def resizeRGBData (rgb : List ℕ) (srcW srcH dstW dstH : ℕ) : List ℕ :=
  (List.range (dstW * dstH * 3)).map fun i =>
    let p := i / 3
    let dstX := p % dstW
    let dstY := p / dstW
    let srcX := min (⌊(dstX : ℚ) * ((srcW : ℚ) / (dstW : ℚ))⌋).toNat (srcW - 1)
    let srcY := min (⌊(dstY : ℚ) * ((srcH : ℚ) / (dstH : ℚ))⌋).toNat (srcH - 1)
    rgb.getD ((srcY * srcW + srcX) * 3 + i % 3) 0

/-- Source function `resizeRGBDataOptimized`: 16-bit fixed-point arithmetic,
`scaleX = floor(srcW * 2^16 / dstW)`, `srcX = (dstX * scaleX) >> 16`
clamped to `srcW - 1` (the shift is natural division here; the modelled
inputs stay far below the 32-bit signed range the JS shift works in). -/
def resizeRGBDataOptimized (rgb : List ℕ) (srcW srcH dstW dstH : ℕ) : List ℕ :=
  let scaleX := srcW * 65536 / dstW
  let scaleY := srcH * 65536 / dstH
  (List.range (dstW * dstH * 3)).map fun i =>
    let p := i / 3
    let dstX := p % dstW
    let dstY := p / dstW
    let srcX := min (dstX * scaleX / 65536) (srcW - 1)
    let srcY := min (dstY * scaleY / 65536) (srcH - 1)
    rgb.getD ((srcY * srcW + srcX) * 3 + i % 3) 0

/-! ## Frame preprocessor (`processWithFallback` / `preprocessFrame`) -/

inductive OutputFormat where
  | uint8
  | float32
deriving Repr, DecidableEq

structure PreprocessingConfig where
  inputSize : ℕ
  maintainAspectRatio : Bool
  outputFormat : OutputFormat
  normalizeValues : Bool
deriving Repr, DecidableEq

def MOVENET_PREPROCESSING_CONFIG : PreprocessingConfig :=
  { inputSize := 192, maintainAspectRatio := true,
    outputFormat := .uint8, normalizeValues := false }

/-- Crop rectangle computed by `calculateDimensions`. -/
structure CropConfig where
  x : ℤ
  y : ℤ
  width : ℤ
  height : ℤ
deriving Repr, DecidableEq

/-- Source function `calculateDimensions`: target square size plus optional centred crop. -/
def calculateDimensions (frameWidth frameHeight : ℕ) (config : PreprocessingConfig) :
    ℕ × ℕ × Option CropConfig :=
  let targetSize := config.inputSize
  if ¬config.maintainAspectRatio then (targetSize, targetSize, none)
  else
    let frameAspectRatio : ℚ := (frameWidth : ℚ) / (frameHeight : ℚ)
    if frameAspectRatio > 1 then
      let cropWidth : ℚ := (frameHeight : ℚ) * 1
      let cropX : ℚ := ((frameWidth : ℚ) - cropWidth) / 2
      (targetSize, targetSize,
        some { x := max 0 ⌊cropX⌋, y := 0, width := ⌊cropWidth⌋, height := frameHeight })
    else if frameAspectRatio < 1 then
      let cropHeight : ℚ := (frameWidth : ℚ) / 1
      let cropY : ℚ := ((frameHeight : ℚ) - cropHeight) / 2
      (targetSize, targetSize,
        some { x := 0, y := max 0 ⌊cropY⌋, width := frameWidth, height := ⌊cropHeight⌋ })
    else (targetSize, targetSize, none)

inductive PixelFormat where
  | yuv
  | rgb
  | other (name : String)
deriving Repr, DecidableEq

/-- A camera frame.  `buffer` is the result of `toArrayBuffer()`; `none`
models a null buffer. -/
structure Frame where
  width : ℕ
  height : ℕ
  pixelFormat : PixelFormat
  buffer : Option (List ℕ)

/-- Output data, `Uint8Array` or `Float32Array`. -/
inductive BufferData where
  | uint8 (data : List ℕ)
  | float32 (data : List ℚ)
deriving Repr, DecidableEq

def BufferData.length : BufferData → ℕ
  | .uint8 d => d.length
  | .float32 d => d.length

structure PreprocessingResult where
  data : BufferData
  width : ℕ
  height : ℕ
  channels : ℕ
  processingTime : ℚ
deriving Repr, DecidableEq

/-- Source function `normalizeUint8ToFloat32`. -/
def normalizeUint8ToFloat32 (d : List ℕ) : List ℚ := d.map fun b => (b : ℚ) / 255

/-- Source function `processWithFallback`: note the destructuring
`const { targetWidth, targetHeight } = calculateDimensions(...)` drops the
crop configuration on the floor. -/
def processWithFallback (frame : Frame) (config : PreprocessingConfig) :
    Except String PreprocessingResult :=
  match frame.buffer with
  | none => .error "Frame buffer is null or undefined"
  | some frameData =>
    let dims := calculateDimensions frame.width frame.height config
    let targetWidth := dims.1
    let targetHeight := dims.2.1
    (match frame.pixelFormat with
     | .yuv => convertYUVtoRGB frameData frame.width frame.height
     | .rgb => .ok frameData
     | .other name => .error ("Unsupported pixel format: " ++ name)).bind fun rgbData =>
    if rgbData.length = 0 then .error "RGB conversion failed - no data produced"
    else
      let resizedData :=
        if targetWidth ≠ frame.width ∨ targetHeight ≠ frame.height then
          resizeRGBData rgbData frame.width frame.height targetWidth targetHeight
        else rgbData
      if resizedData.length = 0 then .error "Resize failed - no data produced"
      else
        let processedData : BufferData :=
          match config.outputFormat with
          | .uint8 =>
            if config.normalizeValues then .float32 (normalizeUint8ToFloat32 resizedData)
            else .uint8 resizedData
          | .float32 => .float32 (normalizeUint8ToFloat32 resizedData)
        .ok { data := processedData, width := targetWidth, height := targetHeight,
              channels := 3, processingTime := 0 }

/-- Source function `preprocessFrame` delegates to the software fallback. -/
def preprocessFrame (frame : Frame) (config : PreprocessingConfig) :
    Except String PreprocessingResult :=
  processWithFallback frame config

/-! ## Mock model output (`MockMoveNetOutput.ts`) -/

inductive Scenario where
  | standing
  | sitting
  | occluded
  | low_confidence
deriving Repr, DecidableEq

/-- The 17 `(y, x, confidence)` triples set by `generateMockMoveNetOutput`
for each scenario, in keypoint-index order (`setKeypoint` writes index
`i`'s triple at offsets `3i .. 3i+2`). -/
def scenarioTriples : Scenario → List (ℚ × ℚ × ℚ)
  | .standing =>
    [(0.15, 0.5, 0.95), (0.12, 0.48, 0.90), (0.12, 0.52, 0.90),
     (0.15, 0.45, 0.85), (0.15, 0.55, 0.85),
     (0.25, 0.42, 0.95), (0.25, 0.58, 0.95), (0.35, 0.38, 0.90),
     (0.35, 0.62, 0.90), (0.45, 0.35, 0.85), (0.45, 0.65, 0.85),
     (0.55, 0.45, 0.92), (0.55, 0.55, 0.92), (0.70, 0.46, 0.88),
     (0.70, 0.54, 0.88), (0.85, 0.47, 0.85), (0.85, 0.53, 0.85)]
  | .sitting =>
    [(0.20, 0.5, 0.90), (0.17, 0.48, 0.85), (0.17, 0.52, 0.85),
     (0.20, 0.45, 0.80), (0.20, 0.55, 0.80),
     (0.30, 0.42, 0.90), (0.30, 0.58, 0.90), (0.40, 0.38, 0.85),
     (0.40, 0.62, 0.85), (0.50, 0.35, 0.80), (0.50, 0.65, 0.80),
     (0.55, 0.45, 0.85), (0.55, 0.55, 0.85), (0.65, 0.40, 0.70),
     (0.65, 0.60, 0.70), (0.75, 0.42, 0.60), (0.75, 0.58, 0.60)]
  | .occluded =>
    [(0.18, 0.5, 0.88), (0.15, 0.48, 0.85), (0.15, 0.52, 0.85),
     (0.18, 0.45, 0.75), (0.18, 0.55, 0.10),
     (0.28, 0.42, 0.90), (0.28, 0.58, 0.85), (0.38, 0.38, 0.80),
     (0.38, 0.62, 0.15), (0.48, 0.35, 0.70), (0.48, 0.65, 0.05),
     (0.58, 0.45, 0.80), (0.58, 0.55, 0.75), (0.72, 0.46, 0.65),
     (0.72, 0.54, 0.25), (0.86, 0.47, 0.50), (0.86, 0.53, 0.08)]
  | .low_confidence =>
    [(0.16, 0.5, 0.45), (0.13, 0.48, 0.40), (0.13, 0.52, 0.42),
     (0.16, 0.45, 0.35), (0.16, 0.55, 0.38),
     (0.26, 0.42, 0.50), (0.26, 0.58, 0.48), (0.36, 0.38, 0.35),
     (0.36, 0.62, 0.32), (0.46, 0.35, 0.28), (0.46, 0.65, 0.30),
     (0.56, 0.45, 0.45), (0.56, 0.55, 0.43), (0.71, 0.46, 0.25),
     (0.71, 0.54, 0.22), (0.86, 0.47, 0.18), (0.86, 0.53, 0.20)]

/-- Source function `generateMockMoveNetOutput`: a length-51 tensor of finite floats. -/
def generateMockMoveNetOutput (scenario : Scenario) : List JVal :=
  (scenarioTriples scenario).flatMap fun t => [some t.1, some t.2.1, some t.2.2]

/-! ## Pipeline orchestrator (`PoseDetectionPipeline.ts`, injectable-model
version) -/

/-- A TensorFlow Lite model handle: `runSync([data])` either throws or
returns a list of output tensors. -/
def ModelHandle := BufferData → Except String (List (List JVal))

structure PoseDetectionConfig where
  preprocessingConfig : PreprocessingConfig
  keypointConfig : KeypointExtractionConfig
  enableMockMode : Bool
  mockScenario : Option Scenario
  model : Option ModelHandle

def DEFAULT_PIPELINE_CONFIG : PoseDetectionConfig :=
  { preprocessingConfig := MOVENET_PREPROCESSING_CONFIG
    keypointConfig := { DEFAULT_KEYPOINT_CONFIG with
      confidenceThreshold := 0.1, screenWidth := 192, screenHeight := 192 }
    enableMockMode := false
    mockScenario := none
    model := none }

structure PipelineResult where
  preprocessing : PreprocessingResult
  poseDetection : PoseDetectionResult
  totalProcessingTime : ℚ
  success : Bool
  error : Option String

/-- Step 2 of `processPoseDetection`: mock mode, real inference with an
internal catch-and-fall-back-to-mock, or mock when no model is loaded.
The inner `throw` for an empty output list is caught by the same inner
`catch` and also falls back to the mock tensor. -/
def pipelineModelOutput (config : PoseDetectionConfig) (prep : PreprocessingResult) :
    List JVal :=
  if config.enableMockMode then
    generateMockMoveNetOutput (config.mockScenario.getD .standing)
  else
    match config.model with
    | some m =>
      match m prep.data with
      | .ok outs => if outs.length = 0 then
          generateMockMoveNetOutput (config.mockScenario.getD .standing)
        else outs.getD 0 []
      | .error _ => generateMockMoveNetOutput (config.mockScenario.getD .standing)
    | none => generateMockMoveNetOutput (config.mockScenario.getD .standing)

/-- The zeroed preprocessing sub-result of a failed pipeline tick. -/
def emptyPreprocessing : PreprocessingResult :=
  { data := .uint8 [], width := 0, height := 0, channels := 0, processingTime := 0 }

/-- The `{} as any` keypoint records of a failed tick, modelled as
all-zero keypoints; the failed pose sub-result keeps the frame's
dimensions. -/
def emptyPoseDetection (frame : Frame) : PoseDetectionResult :=
  let z : Keypoint := { x := 0, y := 0, confidence := 0 }
  let zs : PoseKeypoints :=
    { nose := z, leftEye := z, rightEye := z, leftEar := z, rightEar := z,
      leftShoulder := z, rightShoulder := z, leftElbow := z, rightElbow := z,
      leftWrist := z, rightWrist := z, leftHip := z, rightHip := z,
      leftKnee := z, rightKnee := z, leftAnkle := z, rightAnkle := z }
  { keypoints := zs, screenKeypoints := zs, overallConfidence := 0,
    validKeypoints := 0, processingTime := 0,
    frameWidth := frame.width, frameHeight := frame.height }

/-- The failure record returned by `processPoseDetection`'s `catch`. -/
def failedPipelineResult (frame : Frame) (msg : String) : PipelineResult :=
  { preprocessing := emptyPreprocessing
    poseDetection := emptyPoseDetection frame
    totalProcessingTime := 0
    success := false
    error := some msg }

/-- Source function `processPoseDetection`: preprocess → model (with mock
fallback) → extract, all inside one `try`; a thrown error from either
fallible stage reaches the `catch`, which converts it into a failure
record. -/
def processPoseDetection (frame : Frame) (config : PoseDetectionConfig) : PipelineResult :=
  match preprocessFrame frame config.preprocessingConfig with
  | .error msg => failedPipelineResult frame msg
  | .ok prep =>
    match extractPoseKeypoints (pipelineModelOutput config prep)
        { config.keypointConfig with
          screenWidth := frame.width, screenHeight := frame.height } with
    | .error msg => failedPipelineResult frame msg
    | .ok pose =>
      { preprocessing := prep, poseDetection := pose, totalProcessingTime := 0,
        success := true, error := none }

/-! ## Throughput governor (`useAdvancedFrameProcessor`) -/

structure GovernorConfig where
  targetFps : ℚ
  enableMetrics : Bool
  enableAsyncProcessing : Bool
  logFrameInfo : Bool
  enableMemoryOptimization : Bool
  enableFrameSkipping : Bool
  memoryThreshold : ℚ

def defaultGovernorConfig : GovernorConfig :=
  { targetFps := 30, enableMetrics := true, enableAsyncProcessing := false,
    logFrameInfo := false, enableMemoryOptimization := true,
    enableFrameSkipping := true, memoryThreshold := 50 }

/-- The shared values of the hook. -/
structure GovernorState where
  frameCount : ℕ
  lastProcessingTime : ℚ
  avgProcessingTime : ℚ
  lastFpsCheck : ℚ
  currentFps : ℚ
  framesSkipped : ℕ
  cpuLoadHigh : Bool
  memoryUsage : ℚ
  processingTimes : List ℚ
deriving Repr, DecidableEq

/-- Per-tick ambient inputs: the frame's dimensions, the `Math.random()`
draw, whether `runAtTargetFps` fires the callback this tick, the measured
processing time `dt` and the clock reading `now`. -/
structure TickInput where
  frameWidth : ℕ
  frameHeight : ℕ
  rand : ℚ
  fpsGate : Bool
  dt : ℚ
  now : ℚ

/-- One invocation of the frame-processor worklet.  Returns the new state
and whether the frame was processed (`false` = skipped before any heavy
work). -/
def governorTick (cfg : GovernorConfig) (s : GovernorState) (inp : TickInput) :
    GovernorState × Bool :=
  let s := { s with frameCount := s.frameCount + 1 }
  if cfg.enableMemoryOptimization = true ∧ s.memoryUsage > cfg.memoryThreshold then
    ({ s with framesSkipped := s.framesSkipped + 1 }, false)
  else
    let cpuSkip :=
      cfg.enableFrameSkipping = true ∧ s.processingTimes.length > 5 ∧
        s.processingTimes.sum / (s.processingTimes.length : ℚ) > 1667/100 ∧
        inp.rand < 0.3
    if cpuSkip then
      ({ s with framesSkipped := s.framesSkipped + 1, cpuLoadHigh := true }, false)
    else
      let s :=
        if cfg.enableFrameSkipping = true ∧ s.processingTimes.length > 5 ∧
            ¬s.processingTimes.sum / (s.processingTimes.length : ℚ) > 1667/100 then
          { s with cpuLoadHigh := false }
        else s
      if inp.fpsGate = true ∧ cfg.enableMetrics = true then
        let times := s.processingTimes ++ [inp.dt]
        let times := if times.length > 30 then times.drop 1 else times
        let estimatedMemory : ℚ := (inp.frameWidth * inp.frameHeight * 4 : ℕ) / (1024 * 1024)
        let s := { s with
          lastProcessingTime := inp.dt
          processingTimes := times
          avgProcessingTime := s.avgProcessingTime * 0.9 + inp.dt * 0.1
          memoryUsage := s.memoryUsage * 0.9 + estimatedMemory * 0.1 }
        if inp.now - s.lastFpsCheck ≥ 1000 then
          ({ s with
              currentFps := (s.frameCount : ℚ) / ((inp.now - s.lastFpsCheck) / 1000)
              lastFpsCheck := inp.now
              frameCount := 0 }, true)
        else (s, true)
      else (s, true)

/-! ## CPU load monitor (`memoryManager.ts`) -/

/-- Method `CPULoadMonitor.addProcessingTime`: push, evict past 30 samples. -/
def addProcessingTime (times : List ℚ) (timeMs : ℚ) : List ℚ :=
  let ts := times ++ [timeMs]
  if ts.length > 30 then ts.drop 1 else ts

/-- Method `CPULoadMonitor.isHighCPULoad`. -/
def isHighCPULoad (times : List ℚ) : Bool :=
  if times.length < 5 then false
  else decide (times.sum / (times.length : ℚ) > 1667/100)

/-- Method `CPULoadMonitor.shouldSkipFrame`, with the `Math.random()` draw made
explicit. -/
def shouldSkipFrame (times : List ℚ) (rand : ℚ) : Bool :=
  isHighCPULoad times && decide (rand < 0.3)

/-! ## Temporal smoother (`usePoseDetectionFrameProcessor`) -/

/-- One buffered pose snapshot (only the keypoints matter here). -/
structure PoseFrame where
  keypoints : List Keypoint
deriving Repr, DecidableEq

/-- Smoother state: the pose ring buffer (oldest first) and the last
published smoothed keypoints (`smoothKeypoints`, initially `[]`). -/
structure SmootherState where
  buffer : List PoseFrame
  smooth : List Keypoint
deriving Repr, DecidableEq

def emptySmoother : SmootherState := { buffer := [], smooth := [] }

/-- Embeds `buffer.slice(-3)`. -/
def lastN (n : ℕ) (l : List α) : List α := l.drop (l.length - n)

/-- One pose push: append, `shift()` past `maxBufferSize`, then recompute
the smoothed keypoints when at least 3 snapshots are buffered (the map
runs over the just-pushed keypoint list's indices; an out-of-range lookup
in an older snapshot is modelled by the zero keypoint). -/
def pushPose (maxBufferSize : ℕ) (s : SmootherState) (kps : List Keypoint) : SmootherState :=
  let buffer := s.buffer ++ [{ keypoints := kps }]
  let buffer := if buffer.length > maxBufferSize then buffer.drop 1 else buffer
  let smooth :=
    if buffer.length ≥ 3 then
      (List.range kps.length).map fun keypointIndex =>
        let recent := (lastN 3 buffer).map fun d =>
          d.keypoints.getD keypointIndex { x := 0, y := 0, confidence := 0 }
        { x := (recent.map Keypoint.x).sum / (recent.length : ℚ)
          y := (recent.map Keypoint.y).sum / (recent.length : ℚ)
          confidence := (recent.map Keypoint.confidence).sum / (recent.length : ℚ) : Keypoint }
    else s.smooth
  { buffer := buffer, smooth := smooth }

/-- A whole sequence of pushes. -/
def pushAll (maxBufferSize : ℕ) (s : SmootherState) (frames : List (List Keypoint)) :
    SmootherState :=
  frames.foldl (pushPose maxBufferSize) s

/-! ## Specification-side formulations

These definitions follow the wording of the specification / claims, to be
compared against the source-derived definitions above. -/

def zeroKeypoint : Keypoint := { x := 0, y := 0, confidence := 0 }

/-- Spec wording for the smoothed value of keypoint `j`: the arithmetic
mean of `x`, `y` and `confidence` across the (three) most recent samples. -/
def specMean3 (recent : List (List Keypoint)) (j : ℕ) : Keypoint :=
  let kps := recent.map fun f => f.getD j zeroKeypoint
  { x := (kps.map Keypoint.x).sum / 3
    y := (kps.map Keypoint.y).sum / 3
    confidence := (kps.map Keypoint.confidence).sum / 3 }

/-- Spec wording for the overall confidence: mean over the seven key
joints restricted to those with confidence above 0.1, and 0 when the
restricted set is empty. -/
def specOverallConfidence (k : PoseKeypoints) : ℚ :=
  let cs := (keyConfidences k).filter fun c => decide (1/10 < c)
  if cs.length = 0 then 0 else cs.sum / (cs.length : ℚ)

/-- Claim C4's per-pixel result, as worded: ITU-R BT.601 applied to the
pixel's Y sample and the shared chroma sample of its 2×2 block (Y plane
`w*h`, then U and V planes of `w*h/4` each), an out-of-range chroma index
clamped to the last valid chroma sample, channels rounded to nearest and
clamped to `[0, 255]`. -/
def claimedYUVPixel (buf : List ℕ) (w h x y : ℕ) : ℕ × ℕ × ℕ :=
  let uvSize := w * h / 4
  let cIdx := min (y / 2 * (w / 2) + x / 2) (uvSize - 1)
  let Y : ℤ := buf.getD (y * w + x) 0
  let U : ℤ := (buf.getD (w * h + cIdx) 0 : ℤ) - 128
  let V : ℤ := (buf.getD (w * h + uvSize + cIdx) 0 : ℤ) - 128
  (clamp255 (jsRound ((Y : ℚ) + 1.402 * (V : ℚ))),
   clamp255 (jsRound ((Y : ℚ) - 0.344 * (U : ℚ) - 0.714 * (V : ℚ))),
   clamp255 (jsRound ((Y : ℚ) + 1.772 * (U : ℚ))))

/-- Amended form of C4's per-pixel result: as `claimedYUVPixel`, except
that when the chroma index is out of range, the clamped-to chroma byte is
read through the converter's `|| 128` fallback, so a byte value 0 is
replaced by the neutral 128. -/
def amendedYUVPixel (buf : List ℕ) (w h x y : ℕ) : ℕ × ℕ × ℕ :=
  let uvSize := w * h / 4
  let raw := y / 2 * (w / 2) + x / 2
  let Y : ℤ := buf.getD (y * w + x) 0
  if raw < uvSize then
    let U : ℤ := (buf.getD (w * h + raw) 0 : ℤ) - 128
    let V : ℤ := (buf.getD (w * h + uvSize + raw) 0 : ℤ) - 128
    (clamp255 (jsRound ((Y : ℚ) + 1.402 * (V : ℚ))),
     clamp255 (jsRound ((Y : ℚ) - 0.344 * (U : ℚ) - 0.714 * (V : ℚ))),
     clamp255 (jsRound ((Y : ℚ) + 1.772 * (U : ℚ))))
  else
    let cIdx := uvSize - 1
    let U : ℤ := (or128 (some (buf.getD (w * h + cIdx) 0)) : ℤ) - 128
    let V : ℤ := (or128 (some (buf.getD (w * h + uvSize + cIdx) 0)) : ℤ) - 128
    (clamp255 (jsRound ((Y : ℚ) + 1.402 * (V : ℚ))),
     clamp255 (jsRound ((Y : ℚ) - 0.344 * (U : ℚ) - 0.714 * (V : ℚ))),
     clamp255 (jsRound ((Y : ℚ) + 1.772 * (U : ℚ))))

/-! ## Concrete test inputs used by counterexamples and witnesses -/

/-- A 4×5 YUV 4:2:0 buffer (`w*h = 20`, divisible by 4, length 30):
all Y bytes 100, U plane `[128, 128, 128, 128, 0]`, V plane all 128.
The last row's right pixels have chroma index 5 ≥ 5, clamped to 4, whose
U byte is 0. -/
def c4buf : List ℕ :=
  List.replicate 20 100 ++ [128, 128, 128, 128, 0] ++ List.replicate 5 128

/-- A valid 2×2 YUV 4:2:0 buffer whose single U byte is 0: the `|| 128`
fallback of the optimised converter rewrites it to 128. -/
def zeroChromaBuf : List ℕ := [128, 128, 128, 128, 0, 128]

/-- A valid 2×2 YUV 4:2:0 buffer with nonzero chroma bytes. -/
def goodYUVBuf : List ℕ := [50, 100, 150, 200, 90, 160]

/-- A 4×2 RGB frame whose column `x` holds byte value `10*(x+1)` in all
three channels: the centred square crop region is columns 1..2. -/
def wideFrameBytes : List ℕ :=
  [10, 10, 10, 20, 20, 20, 30, 30, 30, 40, 40, 40,
   10, 10, 10, 20, 20, 20, 30, 30, 30, 40, 40, 40]

def wideFrame : Frame :=
  { width := 4, height := 2, pixelFormat := .rgb, buffer := some wideFrameBytes }

/-- Preprocessing config with a small square input size, aspect ratio
maintained. -/
def smallSquareConfig : PreprocessingConfig :=
  { inputSize := 2, maintainAspectRatio := true,
    outputFormat := .uint8, normalizeValues := false }

/-- The bytes of `wideFrameBytes` inside the centred square crop region
(columns 1..2, all rows, all channels). -/
def cropRegionBytes : List ℕ :=
  (List.range 2).flatMap fun y =>
    (List.range 2).flatMap fun dx =>
      (List.range 3).map fun c => wideFrameBytes.getD ((y * 4 + (1 + dx)) * 3 + c) 0

/-- A 2×2 RGB frame that preprocesses without resizing under
`smallSquareConfig`. -/
def squareFrame : Frame :=
  { width := 2, height := 2, pixelFormat := .rgb, buffer := some (List.replicate 12 7) }

/-- A model executor that always throws. -/
def throwingModel : ModelHandle := fun _ => .error "Model execution failed"

/-- Pipeline configuration with a real (throwing) model injected and mock
mode off. -/
def throwingModelConfig : PoseDetectionConfig :=
  { preprocessingConfig := smallSquareConfig
    keypointConfig := DEFAULT_KEYPOINT_CONFIG
    enableMockMode := false
    mockScenario := none
    model := some throwingModel }

/-- A frame whose `toArrayBuffer()` returns null. -/
def nullBufferFrame : Frame :=
  { width := 2, height := 2, pixelFormat := .rgb, buffer := none }

/-- A governor state whose memory EMA sits above the default 50 MB
threshold. -/
def overloadedState : GovernorState :=
  { frameCount := 3, lastProcessingTime := 5, avgProcessingTime := 5,
    lastFpsCheck := 0, currentFps := 30, framesSkipped := 0,
    cpuLoadHigh := false, memoryUsage := 60,
    processingTimes := [20, 20, 20, 20, 20, 20] }

/-- A governor state below the memory threshold with a calm CPU window. -/
def calmState : GovernorState :=
  { frameCount := 3, lastProcessingTime := 5, avgProcessingTime := 5,
    lastFpsCheck := 0, currentFps := 30, framesSkipped := 0,
    cpuLoadHigh := false, memoryUsage := 10,
    processingTimes := [] }

/-- A sample per-tick input. -/
def sampleTick : TickInput :=
  { frameWidth := 640, frameHeight := 480, rand := 1/10, fpsGate := true,
    dt := 5, now := 500 }

/-- A sample keypoint used in smoother witnesses. -/
def kpA : Keypoint := { x := 1/2, y := 1/3, confidence := 3/4 }

/-! # General lemmas -/

theorem range_map_getD {α : Type} (n : ℕ) (f : ℕ → α) (d : α) (i : ℕ) (hi : i < n) :
    ((List.range n).map f).getD i d = f i := by
  rw [List.getD_eq_getElem _ _ (by simpa using hi)]
  simp

/-! # Claim C2: extractor shape precondition -/

/-- C2: for every model-output buffer whose length is not 51,
`extractPoseKeypoints` fails with the invalid-tensor-shape error and
returns no result; for length-51 buffers it does not raise this error. -/
theorem extractor_shape_precondition (mo : List JVal) (cfg : KeypointExtractionConfig) :
    (mo.length ≠ 51 →
      extractPoseKeypoints mo cfg =
        .error ("Keypoint extraction error: Invalid MoveNet output shape. Expected 51 values (1*1*17*3), got "
          ++ toString mo.length)) ∧
    (mo.length = 51 → ∃ res, extractPoseKeypoints mo cfg = .ok res) := by
  constructor
  · intro h
    simp [extractPoseKeypoints, h]
  · intro h
    unfold extractPoseKeypoints
    rw [if_neg (by omega)]
    exact ⟨_, rfl⟩

/-- Witness for C2 at a length-50 and a length-51 buffer. -/
theorem extractor_shape_precondition_witness :
    ((List.replicate 50 (none : JVal)).length ≠ 51 ∧
      extractPoseKeypoints (List.replicate 50 none) DEFAULT_KEYPOINT_CONFIG =
        .error ("Keypoint extraction error: Invalid MoveNet output shape. Expected 51 values (1*1*17*3), got "
          ++ toString (List.replicate 50 (none : JVal)).length)) ∧
    ((List.replicate 51 (none : JVal)).length = 51 ∧
      ∃ res, extractPoseKeypoints (List.replicate 51 none) DEFAULT_KEYPOINT_CONFIG = .ok res) :=
  ⟨⟨by simp, (extractor_shape_precondition _ _).1 (by simp)⟩,
   ⟨by simp, (extractor_shape_precondition _ _).2 (by simp)⟩⟩

/-! # Claim C9: CPU load monitor -/

/-- C9 counterexample: a window holding a single 100 ms sample has mean
latency far above 16.67 ms, yet `isHighCPULoad` reports `false` (the
monitor requires at least 5 samples before flagging). -/
theorem cpu_monitor_warmup_counterexample :
    ([100] : List ℚ).sum / (([100] : List ℚ).length : ℚ) > 1667 / 100 ∧
    isHighCPULoad [100] = false := by
  constructor
  · norm_num
  · rfl

/-- C9 amended: the window never exceeds 30 samples; once it holds at
least 5 samples the flag is set exactly when the mean exceeds 16.67 ms;
a mean at or below 16.67 ms never sets the flag; and the stochastic skip
fires exactly when the flag is up and the uniform draw is below 0.3. -/
theorem cpu_monitor_amended :
    (∀ (times : List ℚ) (t : ℚ), times.length ≤ 30 →
      (addProcessingTime times t).length ≤ 30) ∧
    (∀ times : List ℚ, 5 ≤ times.length →
      (isHighCPULoad times = true ↔ times.sum / (times.length : ℚ) > 1667 / 100)) ∧
    (∀ times : List ℚ, times.sum / (times.length : ℚ) ≤ 1667 / 100 →
      isHighCPULoad times = false) ∧
    (∀ (times : List ℚ) (r : ℚ),
      shouldSkipFrame times r = true ↔ isHighCPULoad times = true ∧ r < 3 / 10) := by
  refine ⟨?_, ?_, ?_, ?_⟩
  · intro times t h
    simp only [addProcessingTime]
    split
    · simp
      omega
    · simp_all
  · intro times h
    rw [isHighCPULoad, if_neg (by omega)]
    exact decide_eq_true_iff
  · intro times h
    rw [isHighCPULoad]
    split
    · rfl
    · simpa using not_lt.mpr h
  · intro times r
    rw [shouldSkipFrame, Bool.and_eq_true, decide_eq_true_iff]
    constructor
    · rintro ⟨h1, h2⟩
      exact ⟨h1, by norm_num at h2 ⊢; exact h2⟩
    · rintro ⟨h1, h2⟩
      exact ⟨h1, by norm_num at h2 ⊢; exact h2⟩

/-- Witness for C9's amended theorem at concrete windows. -/
theorem cpu_monitor_amended_witness :
    (addProcessingTime (List.replicate 30 (1 : ℚ)) 2).length ≤ 30 ∧
    isHighCPULoad [20, 20, 20, 20, 20] = true ∧
    isHighCPULoad [1, 1, 1, 1, 1] = false ∧
    shouldSkipFrame [20, 20, 20, 20, 20] (1 / 5) = true :=
  ⟨cpu_monitor_amended.1 _ 2 (by simp),
   (cpu_monitor_amended.2.1 [20, 20, 20, 20, 20] (by simp)).2 (by norm_num),
   cpu_monitor_amended.2.2.1 [1, 1, 1, 1, 1] (by norm_num),
   (cpu_monitor_amended.2.2.2 [20, 20, 20, 20, 20] (1 / 5)).2
     ⟨(cpu_monitor_amended.2.1 [20, 20, 20, 20, 20] (by simp)).2 (by norm_num),
      by norm_num⟩⟩

/-! # Claim C8: smoother ring-buffer capacity -/

/-- C8 counterexample: with the hook's default `maxBufferSize = 10`, six
pushes leave six snapshots in the pose buffer, exceeding the claimed
bound of 5. -/
theorem smoother_capacity_counterexample :
    (pushAll 10 emptySmoother (List.replicate 6 [zeroKeypoint])).buffer.length = 6 ∧
    ¬(6 : ℕ) ≤ 5 :=
  ⟨rfl, by omega⟩

theorem pushPose_buffer_length (m : ℕ) (s : SmootherState) (k : List Keypoint) :
    (pushPose m s k).buffer.length =
      if s.buffer.length + 1 > m then s.buffer.length else s.buffer.length + 1 := by
  by_cases h : s.buffer.length + 1 > m <;> simp [pushPose, h]

theorem pushAll_buffer_le (m : ℕ) (s : SmootherState)
    (frames : List (List Keypoint)) (h : s.buffer.length ≤ m) :
    (pushAll m s frames).buffer.length ≤ m := by
  induction frames generalizing s with
  | nil => simpa [pushAll] using h
  | cons k t ih =>
    have hstep : (pushPose m s k).buffer.length ≤ m := by
      rw [pushPose_buffer_length]
      split <;> omega
    exact ih _ hstep

/-- C8 amended: the ring buffer never exceeds the configured
`maxBufferSize` (default 10 in the cited hook): every push past capacity
evicts the oldest snapshot. -/
theorem smoother_capacity_amended (m : ℕ) (s : SmootherState)
    (frames : List (List Keypoint)) (h : s.buffer.length ≤ m) :
    (pushAll m s frames).buffer.length ≤ m :=
  pushAll_buffer_le m s frames h

/-- Witness for C8's amended theorem: twenty pushes at capacity 10. -/
theorem smoother_capacity_amended_witness :
    (pushAll 10 emptySmoother (List.replicate 20 [zeroKeypoint])).buffer.length ≤ 10 :=
  smoother_capacity_amended 10 emptySmoother _ (by simp [emptySmoother])

/-! # Claim C6: governor memory-pressure skip -/

/-- C6: whenever the memory EMA exceeds the threshold (and memory
optimisation is on), the tick skips all heavy processing — for every
random draw and clock reading, the only state changes are the frame
counter and a `framesSkipped` increment of exactly 1, and the CPU check
is never consulted; on a processed metrics tick the memory EMA is updated
as `0.9 * old + 0.1 * (w*h*4 bytes in MB)`. -/
theorem governor_memory_pressure (cfg : GovernorConfig) (s : GovernorState) :
    (∀ inp : TickInput, cfg.enableMemoryOptimization = true →
      s.memoryUsage > cfg.memoryThreshold →
      governorTick cfg s inp =
        ({ s with
            frameCount := s.frameCount + 1,
            framesSkipped := s.framesSkipped + 1 }, false)) ∧
    (∀ inp : TickInput, (governorTick cfg s inp).2 = true →
      inp.fpsGate = true → cfg.enableMetrics = true →
      (governorTick cfg s inp).1.memoryUsage =
        s.memoryUsage * 0.9 +
          ((inp.frameWidth * inp.frameHeight * 4 : ℕ) : ℚ) / (1024 * 1024) * 0.1) := by
  constructor
  · intro inp h1 h2
    simp [governorTick, h1, h2]
  · intro inp hproc hgate hmet
    simp only [governorTick] at hproc ⊢
    split_ifs at hproc ⊢ <;> simp_all

/-- Witness for C6 at a concrete overloaded state (first part) and a calm
state (second part). -/
theorem governor_memory_pressure_witness :
    (governorTick defaultGovernorConfig overloadedState sampleTick =
      ({ overloadedState with
          frameCount := overloadedState.frameCount + 1,
          framesSkipped := overloadedState.framesSkipped + 1 }, false)) ∧
    ((governorTick defaultGovernorConfig calmState sampleTick).1.memoryUsage =
      calmState.memoryUsage * 0.9 +
        ((sampleTick.frameWidth * sampleTick.frameHeight * 4 : ℕ) : ℚ) / (1024 * 1024) * 0.1) :=
  ⟨(governor_memory_pressure defaultGovernorConfig overloadedState).1 sampleTick rfl (by norm_num [overloadedState, defaultGovernorConfig]),
   (governor_memory_pressure defaultGovernorConfig calmState).2 sampleTick
     (by norm_num [governorTick, calmState, defaultGovernorConfig, sampleTick]) rfl rfl⟩

/-! # Claim C7: smoother warm-up and window -/

theorem lastN_of_le {α : Type} (n : ℕ) (l : List α) (h : l.length ≤ n) : lastN n l = l := by
  simp [lastN, Nat.sub_eq_zero_of_le h]

theorem lastN_drop_one {α : Type} (n : ℕ) (l : List α) (h : n + 1 ≤ l.length) :
    lastN n (l.drop 1) = lastN n l := by
  rw [lastN, lastN, List.length_drop, List.drop_drop]
  congr 1
  omega

theorem lastN_length {α : Type} (n : ℕ) (l : List α) :
    (lastN n l).length = min n l.length := by
  rw [lastN, List.length_drop]
  omega

theorem lastN_lastN {α : Type} (n m : ℕ) (l : List α) (h : n ≤ m) :
    lastN n (lastN m l) = lastN n l := by
  rw [lastN, lastN, lastN, List.length_drop, List.drop_drop]
  congr 1
  omega

theorem lastN_map {α β : Type} (f : α → β) (n : ℕ) (l : List α) :
    lastN n (l.map f) = (lastN n l).map f := by
  rw [lastN, lastN, List.length_map, List.map_drop]

theorem pushPose_buffer (m : ℕ) (s : SmootherState) (k : List Keypoint) :
    (pushPose m s k).buffer =
      if s.buffer.length + 1 > m then (s.buffer ++ [PoseFrame.mk k]).drop 1
      else s.buffer ++ [PoseFrame.mk k] := by
  by_cases h : s.buffer.length + 1 > m <;> simp [pushPose, h]

theorem pushAll_buffer (m : ℕ) (s : SmootherState) (fs : List (List Keypoint))
    (h : s.buffer.length ≤ m) :
    (pushAll m s fs).buffer = lastN m (s.buffer ++ fs.map PoseFrame.mk) := by
  induction fs generalizing s with
  | nil =>
    rw [pushAll, List.foldl_nil, List.map_nil, List.append_nil, lastN_of_le _ _ h]
  | cons k t ih =>
    have hlen : (pushPose m s k).buffer.length ≤ m := by
      rw [pushPose_buffer_length]
      split <;> omega
    have step : lastN m ((pushPose m s k).buffer ++ t.map PoseFrame.mk) =
        lastN m (s.buffer ++ (k :: t).map PoseFrame.mk) := by
      rw [pushPose_buffer]
      split
      case isTrue hgt =>
        rw [← List.drop_append_of_le_length (by simp), lastN_drop_one]
        · simp
        · simp
          omega
      case isFalse hle => simp
    calc (pushAll m s (k :: t)).buffer
        = (pushAll m (pushPose m s k) t).buffer := rfl
      _ = lastN m ((pushPose m s k).buffer ++ t.map PoseFrame.mk) := ih _ hlen
      _ = _ := step

theorem pushAll_smooth_of_three (m : ℕ) (hm : 3 ≤ m) (gs : List (List Keypoint))
    (k : List Keypoint) (hlen : 2 ≤ gs.length) :
    (pushAll m emptySmoother (gs ++ [k])).smooth =
      (List.range k.length).map (specMean3 (lastN 3 (gs ++ [k]))) := by
  have hbuf : (pushAll m emptySmoother (gs ++ [k])).buffer =
      lastN m ((gs ++ [k]).map PoseFrame.mk) := by
    simpa [emptySmoother] using
      pushAll_buffer m emptySmoother (gs ++ [k]) (by simp [emptySmoother])
  have hblen : (pushAll m emptySmoother (gs ++ [k])).buffer.length ≥ 3 := by
    rw [hbuf, lastN_length]
    simp
    omega
  have hpenult : pushAll m emptySmoother (gs ++ [k]) =
      pushPose m (pushAll m emptySmoother gs) k := by
    rw [pushAll, List.foldl_append, List.foldl_cons, List.foldl_nil]
    rfl
  have hprevlen : (pushAll m emptySmoother gs).buffer.length ≤ m :=
    pushAll_buffer_le m emptySmoother gs (by simp [emptySmoother])
  -- the recent-3 slice of the final buffer is the last three pushes
  have hrecent : lastN 3 (pushAll m emptySmoother (gs ++ [k])).buffer =
      (lastN 3 (gs ++ [k])).map PoseFrame.mk := by
    rw [hbuf, lastN_lastN _ _ _ hm, lastN_map]
  have hrlen : (lastN 3 (gs ++ [k])).length = 3 := by
    rw [lastN_length]
    simp
    omega
  rw [hpenult] at hbuf hblen ⊢
  rw [hpenult] at hrecent
  -- expose the smooth branch of the final push
  rw [pushPose] at hblen hrecent ⊢
  simp only at hblen hrecent ⊢
  rw [if_pos hblen]
  apply List.map_congr_left
  intro j _
  rw [hrecent]
  simp only [List.map_map, specMean3, List.length_map, hrlen, Nat.cast_ofNat]
  rfl

/-- C7: pushing keypoint sets through the smoother produces no smoothed
output for the first two pushes; from the third push on, the smoothed
value of each keypoint is the arithmetic mean of `x`, `y` and
`confidence` over exactly the three most recent samples, so three
identical pushes smooth to the pushed value exactly.  (`m` is the
buffer capacity, ≥ 3; the hook's default is 10.) -/
theorem smoother_warmup_and_window (m : ℕ) (hm : 3 ≤ m) :
    (∀ fs : List (List Keypoint), fs.length ≤ 2 →
      (pushAll m emptySmoother fs).smooth = []) ∧
    (∀ (gs : List (List Keypoint)) (k : List Keypoint), 2 ≤ gs.length →
      (pushAll m emptySmoother (gs ++ [k])).smooth =
        (List.range k.length).map (specMean3 (lastN 3 (gs ++ [k])))) ∧
    (∀ k : List Keypoint, (pushAll m emptySmoother [k, k, k]).smooth = k) := by
  refine ⟨?_, ?_, ?_⟩
  · rintro (_ | ⟨a, _ | ⟨b, _ | ⟨c, t⟩⟩⟩) hfs
    · rfl
    · simp [pushAll, pushPose, emptySmoother, show ¬1 > m by omega]
    · simp [pushAll, pushPose, emptySmoother, show ¬1 > m by omega, show ¬2 > m by omega]
    · simp at hfs
  · intro gs k hlen
    exact pushAll_smooth_of_three m hm gs k hlen
  · intro k
    have h3 : (pushAll m emptySmoother ([k, k] ++ [k])).smooth =
        (List.range k.length).map (specMean3 (lastN 3 ([k, k] ++ [k]))) :=
      pushAll_smooth_of_three m hm [k, k] k (by simp)
    simp only [show ([k, k] ++ [k] : List (List Keypoint)) = [k, k, k] from rfl] at h3
    rw [h3, lastN_of_le 3 [k, k, k] (by simp)]
    apply List.ext_getElem (by simp)
    intro j hj hj'
    simp only [List.getElem_map, List.getElem_range, specMean3]
    have hget : k.getD j zeroKeypoint = k[j] :=
      List.getD_eq_getElem k zeroKeypoint (by simpa using hj')
    simp only [List.map_cons, List.map_nil, List.sum_cons, List.sum_nil, hget]
    have ex : ∀ q : ℚ, (q + (q + (q + 0))) / 3 = q := by
      intro q
      ring
    rw [ex, ex, ex]

/-- Witness for C7 at concrete push sequences. -/
theorem smoother_warmup_and_window_witness :
    (pushAll 10 emptySmoother [[kpA], [kpA]]).smooth = [] ∧
    (pushAll 10 emptySmoother ([[kpA], [kpA]] ++ [[kpA]])).smooth =
      (List.range 1).map (specMean3 (lastN 3 ([[kpA], [kpA]] ++ [[kpA]]))) ∧
    (pushAll 10 emptySmoother [[kpA], [kpA], [kpA]]).smooth = [kpA] :=
  ⟨(smoother_warmup_and_window 10 (by omega)).1 [[kpA], [kpA]] (by simp),
   by
    have h := (smoother_warmup_and_window 10 (by omega)).2.1 [[kpA], [kpA]] [kpA] (by simp)
    simpa using h,
   (smoother_warmup_and_window 10 (by omega)).2.2 [kpA]⟩

/-! # Claim C3: extractor functional correctness -/

theorem confFold_eq (l : List ℚ) :
    confFold l = ((l.filter fun c => decide (1/10 < c)).sum,
                  (l.filter fun c => decide (1/10 < c)).length) := by
  suffices h : ∀ (t : ℚ) (n : ℕ),
      l.foldl (fun acc c => if c > 1/10 then (acc.1 + c, acc.2 + 1) else acc) (t, n) =
        (t + (l.filter fun c => decide (1/10 < c)).sum,
         n + (l.filter fun c => decide (1/10 < c)).length) by
    simpa [confFold] using h 0 0
  induction l with
  | nil =>
    intro t n
    simp
  | cons c rest ih =>
    intro t n
    by_cases hc : c > 1/10
    · simp only [List.foldl_cons, List.filter_cons, if_pos hc, decide_eq_true hc, ih,
        List.sum_cons, List.length_cons]
      rw [Prod.ext_iff]
      constructor
      · simp
        ring
      · simp
        omega
    · simp only [List.foldl_cons, List.filter_cons, if_neg hc, decide_eq_false hc, ih]
      simp

theorem countFold_eq (l : List Keypoint) (th : ℚ) (n : ℕ) :
    l.foldl (fun count kp => if kp.confidence ≥ th then count + 1 else count) n =
      n + (l.filter fun kp => decide (th ≤ kp.confidence)).length := by
  induction l generalizing n with
  | nil => simp
  | cons kp rest ih =>
    by_cases hc : th ≤ kp.confidence
    · simp [List.foldl_cons, List.filter_cons, hc, ih]
      omega
    · simp [List.foldl_cons, List.filter_cons, hc, ih]

/-- C3: on any length-51 tensor (NaN entries modelled by `none`) and any
config, extraction yields, for each keypoint index `i`, the clamped
`(y, x, confidence) = modelOutput[3i .. 3i+2]` triple with `NaN` as 0;
the screen keypoints scale `x`/`y` by the screen dimensions with
confidence unchanged; the overall confidence is the mean over the seven
key joints with confidence above 0.1 (0 when none qualify); and
`validKeypoints` counts the keypoints at or above the threshold. -/
theorem extractor_functional (mo : List JVal) (cfg : KeypointExtractionConfig)
    (h : mo.length = 51) :
    ∃ res, extractPoseKeypoints mo cfg = .ok res ∧
      (∀ i, i < 17 →
        (poseList res.keypoints).getD i zeroKeypoint =
          { x := clamp01 (orZero (mo.getD (3 * i + 1) none)),
            y := clamp01 (orZero (mo.getD (3 * i) none)),
            confidence := clamp01 (orZero (mo.getD (3 * i + 2) none)) }) ∧
      (∀ i, i < 17 →
        (poseList res.screenKeypoints).getD i zeroKeypoint =
          { x := ((poseList res.keypoints).getD i zeroKeypoint).x * cfg.screenWidth,
            y := ((poseList res.keypoints).getD i zeroKeypoint).y * cfg.screenHeight,
            confidence := ((poseList res.keypoints).getD i zeroKeypoint).confidence }) ∧
      res.overallConfidence = specOverallConfidence res.keypoints ∧
      res.validKeypoints =
        ((poseList res.keypoints).filter fun kp =>
          decide (cfg.confidenceThreshold ≤ kp.confidence)).length := by
  unfold extractPoseKeypoints
  rw [if_neg (by omega)]
  refine ⟨_, rfl, ?_, ?_, ?_, ?_⟩
  · intro i hi
    interval_cases i <;> simp [poseList, buildKeypoints, extractKeypoint, h]
  · intro i hi
    interval_cases i <;> simp [poseList, buildScreenKeypoints, keypointToScreen]
  · show calculateOverallConfidence _ = specOverallConfidence _
    rw [calculateOverallConfidence, specOverallConfidence, confFold_eq]
    rcases Nat.eq_zero_or_pos
        ((keyConfidences (buildKeypoints mo)).filter fun c => decide (1/10 < c)).length
      with h0 | hpos
    · have hnlt : ¬0 <
          ((keyConfidences (buildKeypoints mo)).filter fun c => decide (1/10 < c)).length := by
        omega
      rw [if_neg hnlt, if_pos h0]
    · have hne : ((keyConfidences (buildKeypoints mo)).filter
          fun c => decide (1/10 < c)).length ≠ 0 := by
        omega
      rw [if_pos hpos, if_neg hne]
  · show countValidKeypoints _ _ = _
    rw [countValidKeypoints, countFold_eq]
    simp

/-- Witness for C3 at the standing mock tensor. -/
theorem extractor_functional_witness :
    (generateMockMoveNetOutput .standing).length = 51 ∧
    ∃ res,
      extractPoseKeypoints (generateMockMoveNetOutput .standing) DEFAULT_KEYPOINT_CONFIG =
        .ok res ∧
      (∀ i, i < 17 →
        (poseList res.keypoints).getD i zeroKeypoint =
          { x := clamp01 (orZero ((generateMockMoveNetOutput .standing).getD (3 * i + 1) none)),
            y := clamp01 (orZero ((generateMockMoveNetOutput .standing).getD (3 * i) none)),
            confidence :=
              clamp01 (orZero ((generateMockMoveNetOutput .standing).getD (3 * i + 2) none)) }) ∧
      (∀ i, i < 17 →
        (poseList res.screenKeypoints).getD i zeroKeypoint =
          { x := ((poseList res.keypoints).getD i zeroKeypoint).x *
              DEFAULT_KEYPOINT_CONFIG.screenWidth,
            y := ((poseList res.keypoints).getD i zeroKeypoint).y *
              DEFAULT_KEYPOINT_CONFIG.screenHeight,
            confidence := ((poseList res.keypoints).getD i zeroKeypoint).confidence }) ∧
      res.overallConfidence = specOverallConfidence res.keypoints ∧
      res.validKeypoints =
        ((poseList res.keypoints).filter fun kp =>
          decide (DEFAULT_KEYPOINT_CONFIG.confidenceThreshold ≤ kp.confidence)).length :=
  ⟨rfl, extractor_functional (generateMockMoveNetOutput .standing) DEFAULT_KEYPOINT_CONFIG rfl⟩

/-! # Claim C1: orchestrator failure isolation -/

theorem append_ne_empty_left (a b : String) (ha : a ≠ "") : a ++ b ≠ "" := by
  intro hcontra
  apply ha
  have hlen := congrArg String.length hcontra
  rw [String.length_append] at hlen
  have : a.length = 0 := by
    simpa using Nat.eq_zero_of_add_eq_zero_right hlen
  cases a with
  | mk data =>
    cases data with
    | nil => rfl
    | cons c cs => simp [String.length] at this

theorem convertYUVtoRGB_error_ne (buf : List ℕ) (w h : ℕ) (m : String)
    (he : convertYUVtoRGB buf w h = .error m) : m ≠ "" := by
  unfold convertYUVtoRGB at he
  split_ifs at he <;> simp only [Except.error.injEq] at he <;> subst he <;> decide

theorem processWithFallback_error_ne (f : Frame) (c : PreprocessingConfig) (m : String)
    (he : processWithFallback f c = .error m) : m ≠ "" := by
  unfold processWithFallback at he
  rcases hb : f.buffer with _ | data <;> rw [hb] at he
  · simp only [Except.error.injEq] at he
    subst he
    decide
  · simp only at he
    rcases hp : f.pixelFormat with _ | _ | name <;> rw [hp] at he
    · rcases hcv : convertYUVtoRGB data f.width f.height with m' | rgb <;>
        rw [hcv] at he <;> simp only [Except.bind] at he
      · simp only [Except.error.injEq] at he
        subst he
        exact convertYUVtoRGB_error_ne _ _ _ _ hcv
      · split_ifs at he <;> simp only [Except.error.injEq] at he <;> try subst he
        · decide
        · decide
    · simp only [Except.bind] at he
      split_ifs at he <;> simp only [Except.error.injEq] at he <;> try subst he
      · decide
      · decide
    · simp only [Except.bind, Except.error.injEq] at he
      subst he
      exact append_ne_empty_left _ _ (by decide)

theorem extractPoseKeypoints_error_ne (mo : List JVal) (cfg : KeypointExtractionConfig)
    (m : String) (he : extractPoseKeypoints mo cfg = .error m) : m ≠ "" := by
  unfold extractPoseKeypoints at he
  split_ifs at he <;> simp only [Except.error.injEq] at he
  subst he
  exact append_ne_empty_left _ _ (by decide)

/-- C1 amended: if preprocessing or keypoint extraction throws, the
orchestrator catches it and returns (rather than propagates) the failure
record — `success := false`, a non-empty error message, the zeroed
preprocessing sub-result and the empty pose sub-result (which keeps the
frame's dimensions); `success = false` exactly when an error message is
present.  A throwing model executor alone does NOT produce a failed
result: its error is caught by the inner catch and recovered with the
mock tensor (see the counterexample). -/
theorem pipeline_failure_isolation (frame : Frame) (config : PoseDetectionConfig) :
    (∀ msg, preprocessFrame frame config.preprocessingConfig = .error msg →
      processPoseDetection frame config = failedPipelineResult frame msg) ∧
    (∀ prep msg, preprocessFrame frame config.preprocessingConfig = .ok prep →
      extractPoseKeypoints (pipelineModelOutput config prep)
        { config.keypointConfig with
          screenWidth := frame.width, screenHeight := frame.height } = .error msg →
      processPoseDetection frame config = failedPipelineResult frame msg) ∧
    (∀ msg, (processPoseDetection frame config).error = some msg →
      msg ≠ "" ∧ (processPoseDetection frame config).success = false ∧
      (processPoseDetection frame config).preprocessing = emptyPreprocessing ∧
      (processPoseDetection frame config).poseDetection = emptyPoseDetection frame) ∧
    ((processPoseDetection frame config).success = false ↔
      (processPoseDetection frame config).error ≠ none) := by
  refine ⟨?_, ?_, ?_, ?_⟩
  · intro msg hp
    unfold processPoseDetection
    simp only [hp]
  · intro prep msg hp hx
    unfold processPoseDetection
    simp only [hp, hx]
  · intro msg hmsg
    unfold processPoseDetection at hmsg ⊢
    rcases hp : preprocessFrame frame config.preprocessingConfig with m' | prep <;>
      simp only [hp] at hmsg ⊢
    · simp only [failedPipelineResult, Option.some.injEq] at hmsg
      subst hmsg
      exact ⟨processWithFallback_error_ne _ _ _ hp, rfl, rfl, rfl⟩
    · rcases hx : extractPoseKeypoints (pipelineModelOutput config prep)
          { config.keypointConfig with
            screenWidth := frame.width, screenHeight := frame.height } with m' | pose <;>
        simp only [hx] at hmsg ⊢
      · simp only [failedPipelineResult, Option.some.injEq] at hmsg
        subst hmsg
        exact ⟨extractPoseKeypoints_error_ne _ _ _ hx, rfl, rfl, rfl⟩
      · simp at hmsg
  · unfold processPoseDetection
    rcases hp : preprocessFrame frame config.preprocessingConfig with m' | prep <;>
      simp only [hp]
    · simp [failedPipelineResult]
    · rcases hx : extractPoseKeypoints (pipelineModelOutput config prep)
          { config.keypointConfig with
            screenWidth := frame.width, screenHeight := frame.height } with m' | pose <;>
        simp only [hx]
      · simp [failedPipelineResult]
      · simp

/-- Witness for C1's amended theorem: a null frame buffer makes
preprocessing throw and the pipeline returns the failure record. -/
theorem pipeline_failure_isolation_witness :
    processPoseDetection nullBufferFrame throwingModelConfig =
      failedPipelineResult nullBufferFrame "Frame buffer is null or undefined" ∧
    ("Frame buffer is null or undefined" : String) ≠ "" :=
  ⟨(pipeline_failure_isolation nullBufferFrame throwingModelConfig).1
      "Frame buffer is null or undefined" rfl,
   by
    refine ((pipeline_failure_isolation nullBufferFrame throwingModelConfig).2.2.1
      "Frame buffer is null or undefined" ?_).1
    rw [(pipeline_failure_isolation nullBufferFrame throwingModelConfig).1
      "Frame buffer is null or undefined" rfl]
    rfl⟩

theorem preprocess_squareFrame :
    preprocessFrame squareFrame smallSquareConfig =
      .ok { data := .uint8 (List.replicate 12 7), width := 2, height := 2,
            channels := 3, processingTime := 0 } := by
  unfold preprocessFrame processWithFallback squareFrame
  norm_num [calculateDimensions, smallSquareConfig]
  simp [Except.bind]

/-- C1 counterexample: the claim demands `success := false` whenever the
model-inference stage throws, but a throwing injected model is caught by
the inner catch and recovered with the mock tensor, so the pipeline
returns `success := true` with no error. -/
theorem pipeline_model_throw_counterexample :
    throwingModel (BufferData.uint8 (List.replicate 12 7)) =
      .error "Model execution failed" ∧
    (processPoseDetection squareFrame throwingModelConfig).success = true ∧
    (processPoseDetection squareFrame throwingModelConfig).error = none := by
  have hpre : preprocessFrame squareFrame throwingModelConfig.preprocessingConfig =
      .ok { data := .uint8 (List.replicate 12 7), width := 2, height := 2,
            channels := 3, processingTime := 0 } := preprocess_squareFrame
  have hmo : pipelineModelOutput throwingModelConfig
      { data := .uint8 (List.replicate 12 7), width := 2, height := 2,
        channels := 3, processingTime := 0 } = generateMockMoveNetOutput .standing := rfl
  have hlen : (generateMockMoveNetOutput .standing).length = 51 := rfl
  have hex : ∃ res, extractPoseKeypoints (generateMockMoveNetOutput .standing)
      { throwingModelConfig.keypointConfig with
        screenWidth := squareFrame.width, screenHeight := squareFrame.height } = .ok res := by
    unfold extractPoseKeypoints
    rw [if_neg (by simp [hlen])]
    exact ⟨_, rfl⟩
  obtain ⟨res, hres⟩ := hex
  refine ⟨rfl, ?_, ?_⟩ <;>
    · unfold processPoseDetection
      simp only [hpre, hmo, hres]

/-! # Index and plane infrastructure for the converter and resizer -/

theorem pixel_index_lt {w h x y : ℕ} (hx : x < w) (hy : y < h) : y * w + x < h * w :=
  calc y * w + x < y * w + w := by omega
    _ = (y + 1) * w := by ring
    _ ≤ h * w := Nat.mul_le_mul_right w hy

theorem flat_index_decomp (w : ℕ) (x y c : ℕ) (hx : x < w) (hc : c < 3) :
    ((y * w + x) * 3 + c) / 3 = y * w + x ∧ ((y * w + x) * 3 + c) % 3 = c ∧
      (y * w + x) % w = x ∧ (y * w + x) / w = y := by
  refine ⟨by omega, by omega, ?_, ?_⟩
  · rw [Nat.add_comm, Nat.add_mul_mod_self_right, Nat.mod_eq_of_lt hx]
  · rw [Nat.add_comm, Nat.add_mul_div_right _ _ (by omega : 0 < w),
      Nat.div_eq_of_lt hx, Nat.zero_add]

theorem subarray_length (l : List ℕ) (a b : ℕ) :
    (subarray l a b).length = min (b - a) (l.length - a) := by
  simp [subarray]

theorem subarray_getD (l : List ℕ) (a b i : ℕ) (hi : i < b - a) (hl : a + i < l.length) :
    (subarray l a b).getD i 0 = l.getD (a + i) 0 := by
  rw [subarray, List.getD_eq_getElem _ _ (by simp; omega), List.getD_eq_getElem _ _ hl]
  rw [List.getElem_take, List.getElem_drop]

theorem jsGet_natCast (l : List ℕ) (i : ℕ) (hi : i < l.length) :
    jsGet l (i : ℤ) = some (l.getD i 0) := by
  rw [jsGet, dif_pos ⟨Int.natCast_nonneg i, by simpa using hi⟩]
  rw [List.getD_eq_getElem _ _ hi]
  simp [List.get_eq_getElem]

theorem or128_some_of_ne (v : ℕ) (hv : v ≠ 0) : or128 (some v) = v := by
  cases v with
  | zero => exact absurd rfl hv
  | succ n => rfl

theorem fastClamp_eq (v : ℚ) : fastClamp v = clamp255 (jsRound v) := by
  rw [fastClamp, clamp255, jsRound]
  rcases lt_or_le v 0 with hneg | hpos
  · rw [if_pos hneg]
    have h1 : ⌊v + 1/2⌋ < 1 := Int.floor_lt.mpr (by push_cast; linarith)
    have h2 : max 0 (min 255 ⌊v + 1/2⌋) = 0 := by omega
    rw [h2]
    rfl
  · rcases lt_or_le (255 : ℚ) v with hbig | hmid
    · rw [if_neg (not_lt.mpr hpos), if_pos hbig]
      have h1 : (255 : ℤ) ≤ ⌊v + 1/2⌋ := Int.le_floor.mpr (by push_cast; linarith)
      have h2 : max 0 (min 255 ⌊v + 1/2⌋) = 255 := by omega
      rw [h2]
      rfl
    · rw [if_neg (not_lt.mpr hpos), if_neg (not_lt.mpr hmid)]
      have h0 : (0 : ℤ) ≤ ⌊v + 1/2⌋ := Int.le_floor.mpr (by push_cast; linarith)
      have h255 : ⌊v + 1/2⌋ < 256 := Int.floor_lt.mpr (by push_cast; linarith)
      have h2 : max 0 (min 255 ⌊v + 1/2⌋) = ⌊v + 1/2⌋ := by omega
      rw [h2]

theorem yuvPlanes_spec (buf : List ℕ) (w h : ℕ) (hdvd : 4 ∣ w * h)
    (hlen : 3 * (w * h) ≤ 2 * buf.length) :
    (yuvPlanes buf w h).1.length = w * h ∧
    (yuvPlanes buf w h).2.1.length = w * h / 4 ∧
    (yuvPlanes buf w h).2.2.length = w * h / 4 ∧
    (∀ i, i < w * h → (yuvPlanes buf w h).1.getD i 0 = buf.getD i 0) ∧
    (∀ i, i < w * h / 4 → (yuvPlanes buf w h).2.1.getD i 0 = buf.getD (w * h + i) 0) ∧
    (∀ i, i < w * h / 4 →
      (yuvPlanes buf w h).2.2.getD i 0 = buf.getD (w * h + w * h / 4 + i) 0) := by
  obtain ⟨q, hq⟩ := hdvd
  have hq4 : w * h / 4 = q := by omega
  have hlen' : 6 * q ≤ buf.length := by omega
  have hcast : ((w * h : ℕ) : ℚ) + ((w * h : ℕ) : ℚ) / 4 = ((w * h + q : ℕ) : ℚ) := by
    rw [hq]
    push_cast
    ring
  have hcast2 : ((w * h : ℕ) : ℚ) + 2 * (((w * h : ℕ) : ℚ) / 4) = ((w * h + 2 * q : ℕ) : ℚ) := by
    rw [hq]
    push_cast
    ring
  have hA : (⌊((w * h : ℕ) : ℚ) + ((w * h : ℕ) : ℚ) / 4⌋).toNat = w * h + q := by
    rw [hcast, Int.floor_natCast, Int.toNat_natCast]
  have hB : (⌊((w * h : ℕ) : ℚ) + 2 * (((w * h : ℕ) : ℚ) / 4)⌋).toNat = w * h + 2 * q := by
    rw [hcast2, Int.floor_natCast, Int.toNat_natCast]
  simp only [yuvPlanes, hA, hB]
  rw [hq4]
  refine ⟨?_, ?_, ?_, ?_, ?_, ?_⟩
  · rw [subarray_length]
    omega
  · rw [subarray_length]
    omega
  · rw [subarray_length]
    omega
  · intro i hi
    have hsub := subarray_getD buf 0 (w * h) i (by omega) (by omega)
    rw [Nat.zero_add] at hsub
    exact hsub
  · intro i hi
    rw [subarray_getD buf (w * h) (w * h + q) i (by omega) (by omega)]
  · intro i hi
    rw [subarray_getD buf (w * h + q) (min buf.length (w * h + 2 * q)) i (by omega) (by omega)]

theorem uvIndex_lt {w h x y : ℕ} (hw : 2 ∣ w) (hh : 2 ∣ h) (hx : x < w) (hy : y < h) :
    y / 2 * (w / 2) + x / 2 < w * h / 4 := by
  obtain ⟨a, ha⟩ := hw
  obtain ⟨b, hb⟩ := hh
  subst ha hb
  have hq : 2 * a * (2 * b) / 4 = a * b := by
    rw [show 2 * a * (2 * b) = 4 * (a * b) by ring, Nat.mul_div_cancel_left _ (by norm_num)]
  have hw2 : 2 * a / 2 = a := Nat.mul_div_cancel_left a (by norm_num)
  rw [hq, hw2]
  have hx2 : x / 2 < a := by omega
  have hy2 : y / 2 ≤ b - 1 := by omega
  have hb1 : 1 ≤ b := by omega
  calc y / 2 * a + x / 2 < y / 2 * a + a := by omega
    _ = (y / 2 + 1) * a := by ring
    _ ≤ b * a := Nat.mul_le_mul_right a (by omega)
    _ = a * b := Nat.mul_comm b a

theorem convertYUVtoRGB_ok (buf : List ℕ) (w h : ℕ) (hw : 0 < w) (hh : 0 < h)
    (hlen : w * h ≤ buf.length) (hne : buf.length ≠ 0) :
    ∃ out, convertYUVtoRGB buf w h = .ok out ∧ out.length = w * h * 3 ∧
      ∀ x y c, x < w → y < h → c < 3 →
        out.getD ((y * w + x) * 3 + c) 0 =
          chanOf (yuvPixelStd (yuvPlanes buf w h).1 (yuvPlanes buf w h).2.1
            (yuvPlanes buf w h).2.2 w x y) c := by
  refine ⟨(List.range (w * h * 3)).map fun i =>
      chanOf (yuvPixelStd (yuvPlanes buf w h).1 (yuvPlanes buf w h).2.1
        (yuvPlanes buf w h).2.2 w (i / 3 % w) (i / 3 / w)) (i % 3), ?_, by simp, ?_⟩
  · unfold convertYUVtoRGB
    rw [if_neg hne, if_neg (by omega), if_neg (by omega)]
  · intro x y c hx hy hc
    have hidx : (y * w + x) * 3 + c < w * h * 3 := by
      have h1 := pixel_index_lt hx hy
      have h2 : h * w = w * h := Nat.mul_comm h w
      omega
    rw [range_map_getD _ _ _ _ hidx]
    obtain ⟨h1, h2, h3, h4⟩ := flat_index_decomp w x y c hx hc
    rw [h1, h2, h3, h4]

theorem convertYUVtoRGBOptimized_ok (buf : List ℕ) (w h : ℕ) (hw : 0 < w) (hh : 0 < h)
    (hne : buf.length ≠ 0) :
    ∃ out, convertYUVtoRGBOptimized buf w h = .ok out ∧ out.length = w * h * 3 ∧
      ∀ x y c, x < w → y < h → c < 3 →
        out.getD ((y * w + x) * 3 + c) 0 =
          if y * w + x < (yuvPlanes buf w h).1.length then
            chanOf (yuvPixelOpt (yuvPlanes buf w h).1 (yuvPlanes buf w h).2.1
              (yuvPlanes buf w h).2.2 w x y) c
          else 0 := by
  refine ⟨(List.range (w * h * 3)).map fun i =>
      if i / 3 < (yuvPlanes buf w h).1.length then
        chanOf (yuvPixelOpt (yuvPlanes buf w h).1 (yuvPlanes buf w h).2.1
          (yuvPlanes buf w h).2.2 w (i / 3 % w) (i / 3 / w)) (i % 3)
      else 0, ?_, by simp, ?_⟩
  · unfold convertYUVtoRGBOptimized
    rw [if_neg hne, if_neg (by omega)]
  · intro x y c hx hy hc
    have hidx : (y * w + x) * 3 + c < w * h * 3 := by
      have h1 := pixel_index_lt hx hy
      have h2 : h * w = w * h := Nat.mul_comm h w
      omega
    rw [range_map_getD _ _ _ _ hidx]
    obtain ⟨h1, h2, h3, h4⟩ := flat_index_decomp w x y c hx hc
    rw [h1, h2, h3, h4]

theorem resizeRGBData_getD (rgb : List ℕ) (sw sh dw dh x y c : ℕ)
    (hx : x < dw) (hy : y < dh) (hc : c < 3) :
    (resizeRGBData rgb sw sh dw dh).getD ((y * dw + x) * 3 + c) 0 =
      rgb.getD ((min (⌊(y : ℚ) * ((sh : ℚ) / (dh : ℚ))⌋).toNat (sh - 1) * sw +
        min (⌊(x : ℚ) * ((sw : ℚ) / (dw : ℚ))⌋).toNat (sw - 1)) * 3 + c) 0 := by
  unfold resizeRGBData
  have hidx : (y * dw + x) * 3 + c < dw * dh * 3 := by
    have h1 := pixel_index_lt hx hy
    have h2 : dh * dw = dw * dh := Nat.mul_comm dh dw
    omega
  rw [range_map_getD _ _ _ _ hidx]
  simp only []
  obtain ⟨h1, h2, h3, h4⟩ := flat_index_decomp dw x y c hx hc
  rw [h1, h2, h3, h4]

theorem fixed_point_src_eq (a s d : ℕ) (hd : 0 < d) (hdvd : d ∣ s * 65536) :
    a * (s * 65536 / d) / 65536 = (⌊(a : ℚ) * ((s : ℚ) / (d : ℚ))⌋).toNat := by
  obtain ⟨k, hk⟩ := hdvd
  have h1 : s * 65536 / d = k := by rw [hk, Nat.mul_div_cancel_left _ hd]
  have hkq : (d : ℚ) * (k : ℚ) = (s : ℚ) * 65536 := by exact_mod_cast hk.symm
  have hd' : (d : ℚ) ≠ 0 := by positivity
  have harg : (a : ℚ) * ((s : ℚ) / (d : ℚ)) = ((a * k : ℕ) : ℚ) / ((65536 : ℕ) : ℚ) := by
    push_cast
    rw [← mul_div_assoc, div_eq_div_iff hd' (by norm_num)]
    linear_combination (-(a : ℚ)) * hkq
  rw [h1, harg, Int.floor_toNat, Nat.floor_div_eq_div]

/-- The two resizers agree whenever the 16-bit fixed-point scale factors
are exact, i.e. `dstW ∣ srcW * 2^16` and `dstH ∣ srcH * 2^16`. -/
theorem resizeRGBDataOptimized_eq (rgb : List ℕ) (sw sh dw dh : ℕ)
    (hdw : 0 < dw) (hdh : 0 < dh) (hw : dw ∣ sw * 65536) (hh : dh ∣ sh * 65536) :
    resizeRGBDataOptimized rgb sw sh dw dh = resizeRGBData rgb sw sh dw dh := by
  unfold resizeRGBDataOptimized resizeRGBData
  simp only []
  refine congrArg (fun f => List.map f (List.range (dw * dh * 3))) (funext fun i => ?_)
  rw [fixed_point_src_eq _ _ _ hdw hw, fixed_point_src_eq _ _ _ hdh hh]

/-! # Claim C4: colour-space converter contract -/

theorem yuvPixelStd_eq_amended (buf : List ℕ) (w h x y : ℕ) (hdvd : 4 ∣ w * h)
    (hw : 0 < w) (hh : 0 < h) (hlen : 3 * (w * h) ≤ 2 * buf.length)
    (hx : x < w) (hy : y < h) :
    yuvPixelStd (yuvPlanes buf w h).1 (yuvPlanes buf w h).2.1 (yuvPlanes buf w h).2.2 w x y =
      amendedYUVPixel buf w h x y := by
  obtain ⟨hyL, huL, hvL, hyG, huG, hvG⟩ := yuvPlanes_spec buf w h hdvd hlen
  have hwh : 0 < w * h := Nat.mul_pos hw hh
  have hq1 : 1 ≤ w * h / 4 := by
    obtain ⟨q, hq⟩ := hdvd
    omega
  have hYidx : y * w + x < w * h := by
    have h1 := pixel_index_lt hx hy
    have h2 : h * w = w * h := Nat.mul_comm h w
    omega
  have hY := hyG _ hYidx
  rw [yuvPixelStd, amendedYUVPixel]
  simp only [huL, hvL, hyL, hY]
  by_cases hio : y / 2 * (w / 2) + x / 2 < w * h / 4
  · rw [if_neg (by omega), if_pos hio, huG _ hio, hvG _ hio]
  · rw [if_pos (by omega), if_neg hio]
    have hsafe : min ((y / 2 * (w / 2) + x / 2 : ℕ) : ℤ)
        (min (((w * h / 4 : ℕ) : ℤ) - 1) (((w * h / 4 : ℕ) : ℤ) - 1)) =
        ((w * h / 4 - 1 : ℕ) : ℤ) := by
      omega
    rw [hsafe, jsGet_natCast _ _ (by omega), jsGet_natCast _ _ (by omega),
      huG _ (by omega), hvG _ (by omega)]

/-- C4 amended: for dimensions whose pixel count is divisible by 4 (so
the 4:2:0 chroma planes are well formed) and a buffer of length at least
`1.5 * w * h`, the converter succeeds with a `w*h*3`-byte buffer whose
pixels follow ITU-R BT.601 on the block's shared chroma sample, rounded
to nearest and clamped to `[0, 255]`, with an out-of-range chroma index
clamped to the last valid chroma sample EXCEPT that a clamped-to chroma
byte of 0 is read as the neutral 128 (the converter's `|| 128` fallback);
it fails exactly on an empty buffer or non-positive dimensions. -/
theorem converter_contract (buf : List ℕ) (w h : ℕ) :
    ((buf = [] ∨ w = 0 ∨ h = 0) → ∃ msg, convertYUVtoRGB buf w h = .error msg) ∧
    (0 < w → 0 < h → 4 ∣ w * h → 3 * (w * h) ≤ 2 * buf.length →
      ∃ out, convertYUVtoRGB buf w h = .ok out ∧ out.length = w * h * 3 ∧
        ∀ x y c, x < w → y < h → c < 3 →
          out.getD ((y * w + x) * 3 + c) 0 = chanOf (amendedYUVPixel buf w h x y) c) := by
  constructor
  · intro hcond
    unfold convertYUVtoRGB
    by_cases hb : buf.length = 0
    · rw [if_pos hb]
      exact ⟨_, rfl⟩
    · have hwh : w = 0 ∨ h = 0 := by
        rcases hcond with hc | hc | hc
        · exact absurd (by simp [hc]) hb
        · exact Or.inl hc
        · exact Or.inr hc
      rw [if_neg hb, if_pos hwh]
      exact ⟨_, rfl⟩
  · intro hw hh hdvd hlen
    have hwh : 0 < w * h := Nat.mul_pos hw hh
    have hne : buf.length ≠ 0 := by omega
    have hlen' : w * h ≤ buf.length := by omega
    obtain ⟨out, ho, hl, hg⟩ := convertYUVtoRGB_ok buf w h hw hh hlen' hne
    refine ⟨out, ho, hl, fun x y c hx hy hc => ?_⟩
    rw [hg x y c hx hy hc, yuvPixelStd_eq_amended buf w h x y hdvd hw hh hlen hx hy]

/-- Witness for C4's amended theorem: the error case at an empty buffer
and the success case at a valid 2×2 buffer. -/
theorem converter_contract_witness :
    (∃ msg, convertYUVtoRGB ([] : List ℕ) 2 2 = .error msg) ∧
    (∃ out, convertYUVtoRGB goodYUVBuf 2 2 = .ok out ∧ out.length = 2 * 2 * 3 ∧
      ∀ x y c, x < 2 → y < 2 → c < 3 →
        out.getD ((y * 2 + x) * 3 + c) 0 = chanOf (amendedYUVPixel goodYUVBuf 2 2 x y) c) :=
  ⟨(converter_contract [] 2 2).1 (Or.inl rfl),
   (converter_contract goodYUVBuf 2 2).2 (by omega) (by omega) (by omega)
     (by simp [goodYUVBuf])⟩

theorem clamp255_jsRound_eq (v : ℚ) (n : ℕ) (h1 : (n : ℚ) ≤ v + 1/2)
    (h2 : v + 1/2 < n + 1) (h3 : n ≤ 255) : clamp255 (jsRound v) = n := by
  have hfl : ⌊v + 1/2⌋ = (n : ℤ) := Int.floor_eq_iff.mpr ⟨h1, by push_cast; exact h2⟩
  rw [jsRound, hfl, clamp255]
  omega

theorem clamp255_jsRound_zero (v : ℚ) (h : v + 1/2 < 1) : clamp255 (jsRound v) = 0 := by
  have hfl : ⌊v + 1/2⌋ < 1 := Int.floor_lt.mpr (by push_cast; exact h)
  rw [jsRound, clamp255]
  omega

/-- C4 counterexample: at `c4buf` (a 4×5 frame, 20 Y bytes of 100, U
plane `[128,128,128,128,0]`, V plane all 128), pixel `(x,y) = (3,4)` has
chroma index 5, out of range; the claim's policy (clamp to the last U
byte, which is 0) gives blue channel 0, but the converter returns 100:
the `|| 128` fallback rewrites the zero byte to neutral chroma. -/
theorem converter_claim_counterexample :
    ((convertYUVtoRGB c4buf 4 5).toOption.getD []).getD ((4 * 4 + 3) * 3 + 2) 0 = 100 ∧
    chanOf (claimedYUVPixel c4buf 4 5 3 4) 2 = 0 := by
  have hlen : c4buf.length = 30 := by simp [c4buf]
  obtain ⟨out, ho, hl, hg⟩ :=
    convertYUVtoRGB_ok c4buf 4 5 (by omega) (by omega) (by omega) (by omega)
  have hpix := hg 3 4 2 (by omega) (by omega) (by omega)
  rw [yuvPixelStd_eq_amended c4buf 4 5 3 4 (by omega) (by omega) (by omega) (by omega)
    (by omega) (by omega)] at hpix
  have hU : c4buf[24]?.getD 0 = 0 := by rfl
  have hY : c4buf[19]?.getD 0 = 100 := by rfl
  constructor
  · rw [ho]
    simp only [Except.toOption, Option.getD_some]
    rw [hpix, amendedYUVPixel]
    norm_num [chanOf]
    rw [hU, hY, show or128 (some 0) = 128 from rfl]
    exact clamp255_jsRound_eq _ 100 (by norm_num) (by norm_num) (by norm_num)
  · rw [claimedYUVPixel]
    norm_num [chanOf]
    rw [hU, hY]
    exact clamp255_jsRound_zero _ (by norm_num)

/-! # Claim C10: optimized paths vs standard paths -/

theorem yuvPixelOpt_eq_std (buf : List ℕ) (w h x y : ℕ) (hw2 : 2 ∣ w) (hh2 : 2 ∣ h)
    (hw : 0 < w) (hh : 0 < h) (hlen : 3 * (w * h) ≤ 2 * buf.length)
    (hnz : ∀ i, w * h ≤ i → i < buf.length → buf.getD i 0 ≠ 0)
    (hx : x < w) (hy : y < h) :
    yuvPixelOpt (yuvPlanes buf w h).1 (yuvPlanes buf w h).2.1 (yuvPlanes buf w h).2.2 w x y =
      yuvPixelStd (yuvPlanes buf w h).1 (yuvPlanes buf w h).2.1 (yuvPlanes buf w h).2.2 w x y := by
  have hdvd : 4 ∣ w * h := by
    obtain ⟨a, ha⟩ := hw2
    obtain ⟨b, hb⟩ := hh2
    exact ⟨a * b, by subst ha hb; ring⟩
  obtain ⟨hyL, huL, hvL, hyG, huG, hvG⟩ := yuvPlanes_spec buf w h hdvd hlen
  have hio := uvIndex_lt hw2 hh2 hx hy
  have hwh : 0 < w * h := Nat.mul_pos hw hh
  have h4 : w * h = 4 * (w * h / 4) := by
    obtain ⟨q, hq'⟩ := hdvd
    omega
  have hq : 0 < w * h / 4 := by omega
  have hbl : 6 * (w * h / 4) ≤ buf.length := by omega
  rw [yuvPixelOpt, yuvPixelStd]
  simp only [huL, hvL]
  rw [if_neg (by omega)]
  have hsafe : min ((y / 2 * (w / 2) + x / 2 : ℕ) : ℤ)
      (min (((w * h / 4 : ℕ) : ℤ) - 1) (((w * h / 4 : ℕ) : ℤ) - 1)) =
      ((y / 2 * (w / 2) + x / 2 : ℕ) : ℤ) := by omega
  rw [hsafe, jsGet_natCast _ _ (by omega), jsGet_natCast _ _ (by omega),
    huG _ hio, hvG _ hio,
    or128_some_of_ne _ (hnz _ (by omega) (by omega)),
    or128_some_of_ne _ (hnz _ (by omega) (by omega)),
    fastClamp_eq, fastClamp_eq, fastClamp_eq]
  refine congrArg₂ Prod.mk ?_ (congrArg₂ Prod.mk ?_ ?_) <;>
    · refine congrArg clamp255 (congrArg jsRound ?_)
      ring

/-- C10 amended: the optimised converter is byte-identical to the
standard one on well-formed even-dimension YUV 4:2:0 buffers none of
whose chroma bytes is 0 (a zero chroma byte trips the optimised path's
`|| 128` fallback — see the counterexample); the optimised resizer is
byte-identical to the standard one whenever the 16-bit fixed-point scale
factors are exact (`dstW ∣ srcW·2^16` and `dstH ∣ srcH·2^16`); in general
the pairs differ. -/
theorem optimized_paths_equivalence :
    (∀ (buf : List ℕ) (w h : ℕ), 2 ∣ w → 2 ∣ h → 0 < w → 0 < h →
      3 * (w * h) ≤ 2 * buf.length →
      (∀ i, w * h ≤ i → i < buf.length → buf.getD i 0 ≠ 0) →
      convertYUVtoRGBOptimized buf w h = convertYUVtoRGB buf w h) ∧
    (∀ (rgb : List ℕ) (sw sh dw dh : ℕ), 0 < dw → 0 < dh →
      dw ∣ sw * 65536 → dh ∣ sh * 65536 →
      resizeRGBDataOptimized rgb sw sh dw dh = resizeRGBData rgb sw sh dw dh) := by
  constructor
  · intro buf w h hw2 hh2 hw hh hlen hnz
    have hwh : 0 < w * h := Nat.mul_pos hw hh
    have hne : buf.length ≠ 0 := by omega
    have hlen' : w * h ≤ buf.length := by omega
    obtain ⟨o1, ho1, hl1, hg1⟩ := convertYUVtoRGBOptimized_ok buf w h hw hh hne
    obtain ⟨o2, ho2, hl2, hg2⟩ := convertYUVtoRGB_ok buf w h hw hh hlen' hne
    have hyL := (yuvPlanes_spec buf w h
      (by obtain ⟨a, ha⟩ := hw2; obtain ⟨b, hb⟩ := hh2; exact ⟨a * b, by subst ha hb; ring⟩)
      hlen).1
    rw [ho1, ho2]
    congr 1
    apply List.ext_getElem (by omega)
    intro i hi hi'
    have hilen : i < w * h * 3 := by omega
    have hc3 : i % 3 < 3 := Nat.mod_lt _ (by omega)
    have hpi : i / 3 < w * h := by omega
    have hxw : i / 3 % w < w := Nat.mod_lt _ hw
    have hyh : i / 3 / w < h := by
      rw [Nat.div_lt_iff_lt_mul hw]
      have hcomm : h * w = w * h := Nat.mul_comm h w
      omega
    have hidx : (i / 3 / w * w + i / 3 % w) * 3 + i % 3 = i := by
      have h1 := Nat.div_add_mod (i / 3) w
      have h2 := Nat.div_add_mod i 3
      have h3 : i / 3 / w * w = w * (i / 3 / w) := Nat.mul_comm _ _
      omega
    rw [← List.getD_eq_getElem o1 0 hi, ← List.getD_eq_getElem o2 0 hi', ← hidx,
      hg1 _ _ _ hxw hyh hc3, hg2 _ _ _ hxw hyh hc3,
      if_pos (by rw [hyL]; exact hidx ▸ (by omega : i / 3 / w * w + i / 3 % w < w * h)),
      yuvPixelOpt_eq_std buf w h _ _ hw2 hh2 hw hh hlen hnz hxw hyh]
  · intro rgb sw sh dw dh hdw hdh hw hh
    exact resizeRGBDataOptimized_eq rgb sw sh dw dh hdw hdh hw hh

/-- Witness for C10's amended theorem at concrete buffers. -/
theorem optimized_paths_equivalence_witness :
    convertYUVtoRGBOptimized goodYUVBuf 2 2 = convertYUVtoRGB goodYUVBuf 2 2 ∧
    resizeRGBDataOptimized wideFrameBytes 4 2 2 1 = resizeRGBData wideFrameBytes 4 2 2 1 :=
  ⟨optimized_paths_equivalence.1 goodYUVBuf 2 2 (by norm_num) (by norm_num) (by norm_num)
      (by norm_num) (by simp [goodYUVBuf])
      (by
        intro i h1 h2
        simp [goodYUVBuf] at h2
        interval_cases i <;> simp [goodYUVBuf]),
   optimized_paths_equivalence.2 wideFrameBytes 4 2 2 1 (by norm_num) (by norm_num)
     (by norm_num) (by norm_num)⟩

/-- C10 counterexample: on the valid 2×2 buffer `zeroChromaBuf` whose
single U byte is 0, output byte 1 (pixel 0's green channel) differs:
the standard converter uses U − 128 = −128 and yields G = 172, while the
optimised converter's `|| 128` fallback treats the zero byte as neutral
chroma and yields G = 128. -/
theorem optimized_convert_counterexample :
    ((convertYUVtoRGB zeroChromaBuf 2 2).toOption.getD []).getD 1 0 = 172 ∧
    ((convertYUVtoRGBOptimized zeroChromaBuf 2 2).toOption.getD []).getD 1 0 = 128 := by
  have hlen : zeroChromaBuf.length = 6 := by simp [zeroChromaBuf]
  have hspec := yuvPlanes_spec zeroChromaBuf 2 2 (by norm_num) (by omega)
  obtain ⟨hyL, huL, hvL, hyG, huG, hvG⟩ := hspec
  have hU : zeroChromaBuf.getD (2 * 2 + 0) 0 = 0 := by rfl
  have hV : zeroChromaBuf.getD (2 * 2 + 2 * 2 / 4 + 0) 0 = 128 := by rfl
  have hY : zeroChromaBuf.getD (0 * 2 + 0) 0 = 128 := by rfl
  constructor
  · obtain ⟨out, ho, hl, hg⟩ :=
      convertYUVtoRGB_ok zeroChromaBuf 2 2 (by omega) (by omega) (by omega) (by omega)
    have hpix := hg 0 0 1 (by omega) (by omega) (by omega)
    rw [ho]
    simp only [Except.toOption, Option.getD_some]
    rw [show (1 : ℕ) = (0 * 2 + 0) * 3 + 1 by norm_num, hpix, yuvPixelStd]
    simp only [huL, hvL]
    rw [if_neg (by norm_num), hyG (0 * 2 + 0) (by norm_num), huG 0 (by norm_num),
      hvG 0 (by norm_num), hU, hV, hY]
    norm_num [chanOf]
    exact clamp255_jsRound_eq _ 172 (by norm_num) (by norm_num) (by norm_num)
  · obtain ⟨out, ho, hl, hg⟩ :=
      convertYUVtoRGBOptimized_ok zeroChromaBuf 2 2 (by omega) (by omega) (by omega)
    have hpix := hg 0 0 1 (by omega) (by omega) (by omega)
    rw [ho]
    simp only [Except.toOption, Option.getD_some]
    rw [show (1 : ℕ) = (0 * 2 + 0) * 3 + 1 by norm_num, hpix,
      if_pos (by rw [hyL]; norm_num), yuvPixelOpt]
    simp only [huL, hvL]
    have hsafe : min ((0 / 2 * (2 / 2) + 0 / 2 : ℕ) : ℤ)
        (min (((2 * 2 / 4 : ℕ) : ℤ) - 1) (((2 * 2 / 4 : ℕ) : ℤ) - 1)) =
        ((0 / 2 * (2 / 2) + 0 / 2 : ℕ) : ℤ) := by
      norm_num
    rw [hsafe, jsGet_natCast _ _ (by simp [huL, hvL]),
      jsGet_natCast _ _ (by simp [huL, hvL]),
      huG _ (by norm_num), hvG _ (by norm_num),
      hyG (0 * 2 + 0) (by norm_num)]
    norm_num [chanOf]
    rw [show zeroChromaBuf[4]?.getD 0 = 0 from rfl,
      show zeroChromaBuf[5]?.getD 0 = 128 from rfl,
      show zeroChromaBuf[0]?.getD 0 = 128 from rfl,
      show or128 (some 0) = 128 from rfl, show or128 (some 128) = 128 from rfl]
    rw [fastClamp_eq]
    exact clamp255_jsRound_eq _ 128 (by norm_num) (by norm_num) (by norm_num)

/-! # Claim C5: centred crop in the software preprocessing path -/

/-- C5 (code bug): `calculateDimensions` computes the centred square crop
(for a 4×2 frame: `x = 1, width = 2`, i.e. columns 1..2), but
`processWithFallback` destructures only the target dimensions and drops
the crop: it resizes the full frame, and the first output byte is 10 —
the colour of column 0 — which does not occur anywhere in the centred
square region, so the output samples outside the claimed crop. -/
theorem crop_not_applied_bug :
    calculateDimensions 4 2 smallSquareConfig =
      (2, 2, some { x := 1, y := 0, width := 2, height := 2 }) ∧
    processWithFallback wideFrame smallSquareConfig =
      .ok { data := .uint8 (resizeRGBData wideFrameBytes 4 2 2 2), width := 2, height := 2,
            channels := 3, processingTime := 0 } ∧
    (resizeRGBData wideFrameBytes 4 2 2 2).getD 0 0 = 10 ∧
    ¬(10 : ℕ) ∈ cropRegionBytes := by
  refine ⟨?_, ?_, ?_, ?_⟩
  · norm_num [calculateDimensions, smallSquareConfig, Int.floor_one, Int.floor_ofNat]
  · unfold processWithFallback wideFrame
    norm_num [calculateDimensions, smallSquareConfig]
    simp [Except.bind, wideFrameBytes, resizeRGBData]
  · have h := resizeRGBData_getD wideFrameBytes 4 2 2 2 0 0 0 (by omega) (by omega) (by omega)
    nth_rewrite 1 [show (0 : ℕ) = (0 * 2 + 0) * 3 + 0 by norm_num]
    rw [h]
    norm_num [wideFrameBytes]
  · decide

end Pose
